import Mathlib

/-!
Verification of the FIX order-adapter core (Binod_UW).

The Python sources under `src/` are shallowly embedded: strings are
`List Char` (the wire protocol is ASCII, so character count and byte count
coincide), Python `int` is `Int` (arbitrary precision in both), Python
`Decimal` values are exact rationals, a Python `dict` is an association
list (`sorted(d.keys())` iteration is represented by the list being kept
in sorted key order, stated as a hypothesis where it matters), and wall
clock readings (`datetime.utcnow()`, `date.today()`) are explicit
parameters: an integer timestamp in microseconds and a calendar date.
Functions that can raise return `Except`.
-/

/-- Wire alphabet: messages are lists of characters. -/
abbrev Str := List Char

/-- The SOH (0x01) field separator of FIX. -/
def soh : Char := '\x01'

/-- Value of an ASCII digit character (`ord(c) - ord('0')`). -/
def charToDigit (c : Char) : Nat := c.toNat - 48

/-- Fuel-driven loop producing the decimal digits of `n`, most significant
first, in front of `acc`. -/
def digitsLoop : Nat → Nat → List Char → List Char
  | 0, _, acc => acc
  | fuel + 1, n, acc =>
    if n < 10 then Nat.digitChar n :: acc
    else digitsLoop fuel (n / 10) (Nat.digitChar (n % 10) :: acc)

/-- Decimal rendering of a natural number, mirroring Python `str(n)` for `n ≥ 0`. -/
def natToDigits (n : Nat) : Str := digitsLoop (n + 1) n []

/-- Decimal rendering of a Python `int` (`str(i)`). -/
def intToDigits (i : Int) : Str :=
  if i < 0 then '-' :: natToDigits i.natAbs else natToDigits i.natAbs

/-- Numeric value of a most-significant-first digit string. -/
def decValue (s : Str) : Nat := s.foldl (fun acc c => 10 * acc + charToDigit c) 0

/-- Parse a non-empty all-digit string (the digit part of Python `int(s)`). -/
def decNat? (s : Str) : Option Nat :=
  if s.isEmpty then none
  else if s.all Char.isDigit then some (decValue s) else none

/-- Python `int(s)` on the strings arising in FIX tags: an optional sign
followed by decimal digits; anything else raises `ValueError` (`none`). -/
def pyInt? (s : Str) : Option Int :=
  match s with
  | [] => none
  | c :: rest =>
    if c = '-' then (decNat? rest).map (fun n => -(n : Int))
    else if c = '+' then (decNat? rest).map (fun n => (n : Int))
    else (decNat? (c :: rest)).map (fun n => (n : Int))

/-- Python `f"{n:03d}"` for `n ≥ 0`: zero-pad the decimal digits to width 3. -/
def pad3 (n : Nat) : Str :=
  List.replicate (3 - (natToDigits n).length) '0' ++ natToDigits n

/-- `calculate_checksum` (src/src/utils/fix_utils.py:63): sum of the byte
values of the message, modulo 256. -/
def calculate_checksum (message : Str) : Nat :=
  (message.map Char.toNat).sum % 256

/-- One `tag=value` field as rendered by `f"{tag}={value}"`. -/
def renderField (p : Int × Str) : Str := intToDigits p.1 ++ '=' :: p.2

/-- The parts joined into the body by `build_fix_message`: `35=<msg_type>`
followed by every field whose tag is not 8, 9 or 10, in dict iteration
order (the association list stands for the dict with its keys already in
the order `sorted(fields.keys())` produces). -/
def bodyParts (fields : List (Int × Str)) (msgType : Str) : List Str :=
  ("35=".data ++ msgType) ::
    (fields.filter (fun p => ¬(p.1 = 8 ∨ p.1 = 9 ∨ p.1 = 10))).map renderField

/-- `'\x01'.join(parts)`. -/
def joinSoh : List Str → Str
  | [] => []
  | [p] => p
  | p :: ps => p ++ soh :: joinSoh ps

/-- `build_fix_message` (src/src/utils/fix_utils.py:30): header `8=FIX.4.4`,
`9=<body length>`, the body starting at `35=`, and a trailing
`10=<checksum>` field. -/
def build_fix_message (fields : List (Int × Str)) (msgType : Str) : Str :=
  let body := joinSoh (bodyParts fields msgType)
  let bodyLength := body.length + 1
  let fullMessage :=
    "8=FIX.4.4".data ++ soh :: "9=".data ++ natToDigits bodyLength ++ soh :: body ++ [soh]
  fullMessage ++ "10=".data ++ pad3 (calculate_checksum fullMessage) ++ [soh]

/-- Split a character list at every occurrence of `c` (Python `str.split`). -/
def splitOnChar (c : Char) : Str → List Str
  | [] => [[]]
  | x :: xs =>
    if x = c then [] :: splitOnChar c xs
    else
      match splitOnChar c xs with
      | [] => [[x]]
      | h :: t => (x :: h) :: t

/-- `part.split('=', 1)[0]`. -/
def tagPart (part : Str) : Str := part.takeWhile (fun c => c ≠ '=')

/-- `part.split('=', 1)[1]` (only used when `'=' in part`). -/
def valuePart (part : Str) : Str := (part.dropWhile (fun c => c ≠ '=')).tail

/-- One iteration of the parsing loop of `parse_fix_message`: fields without
`=` are skipped, tags that fail `int()` are skipped. -/
def partToPair? (part : Str) : Option (Int × Str) :=
  if part.contains '=' then (pyInt? (tagPart part)).map (fun t => (t, valuePart part))
  else none

/-- Lookup in the association-list model of a Python dict. -/
def dictLookup (d : List (Int × Str)) (k : Int) : Option Str :=
  match d with
  | [] => none
  | p :: rest => if k = p.1 then some p.2 else dictLookup rest k

/-- `d[k] = v` on the association-list model of a Python dict: overwrite in
place if the key exists, otherwise append. -/
def dictInsert (d : List (Int × Str)) (k : Int) (v : Str) : List (Int × Str) :=
  if d.any (fun p => p.1 = k) then d.map (fun p => if p.1 = k then (k, v) else p)
  else d ++ [(k, v)]

/-- `parse_fix_message` (src/src/utils/fix_utils.py:11): split on SOH, split
each part at the first `=`, parse the tag as an integer, store into the
field dict; malformed parts are skipped.  No value is ever rejected. -/
def parse_fix_message (message : Str) : List (Int × Str) :=
  ((splitOnChar soh message).filterMap partToPair?).foldl
    (fun d p => dictInsert d p.1 p.2) []

/-- `validate_fix_message_structure` (src/src/utils/fix_utils.py:190):
`message.startswith("8=FIX")`. -/
def startsWith8eqFIX (m : Str) : Bool :=
  "8=FIX".data.isPrefixOf m

/-- `re.search(r'10=\d{3}\x01$', message)`: the message ends with a
three-digit checksum field. -/
def endsWithChecksumField (m : Str) : Bool :=
  match m.reverse with
  | s :: d1 :: d2 :: d3 :: '=' :: '0' :: '1' :: _ =>
    s = soh && d1.isDigit && d2.isDigit && d3.isDigit
  | _ => false

/-- `re.match(r'8=FIX\.\d\.\d\x019=\d+\x0135=', message)`: the header shape
check (note: it accepts any `FIX.d.d` version and any digit run for tag 9). -/
def matchesRequiredHeader (m : Str) : Bool :=
  match m with
  | '8' :: '=' :: 'F' :: 'I' :: 'X' :: '.' :: a :: '.' :: b :: c :: '9' :: '=' :: rest =>
    a.isDigit && b.isDigit && c = soh &&
      (let ds := rest.takeWhile Char.isDigit
       ds ≠ [] &&
        match rest.dropWhile Char.isDigit with
        | c1 :: '3' :: '5' :: '=' :: _ => c1 = soh
        | _ => false)
  | _ => false

/-- `validate_fix_message_structure` (src/src/utils/fix_utils.py:190): only
these three syntactic shape checks; BodyLength and CheckSum values are not
verified against the message content. -/
def validate_fix_message_structure (m : Str) : Bool :=
  !m.isEmpty && startsWith8eqFIX m && endsWithChecksumField m && matchesRequiredHeader m

/-- The value the parsing loop leaves for key `k` after inserting `ps` in
order: the last pair with that key wins (Python dict overwrite order). -/
def lastLookup (ps : List (Int × Str)) (k : Int) : Option Str :=
  match ps with
  | [] => none
  | p :: rest =>
    match lastLookup rest k with
    | some v => some v
    | none => if p.1 = k then some p.2 else none

/-- A string free of the SOH separator (safe to embed as a field value). -/
def SohFree (s : Str) : Prop := ∀ x ∈ s, x ≠ soh

instance decidableSohFree (s : Str) : Decidable (SohFree s) :=
  inferInstanceAs (Decidable (∀ x ∈ s, x ≠ soh))

/-- The `body` local of `build_fix_message`. -/
def fixBody (fields : List (Int × Str)) (msgType : Str) : Str :=
  joinSoh (bodyParts fields msgType)

/-- The `full_message` local of `build_fix_message`: everything before the
checksum field. -/
def fixPreChecksum (fields : List (Int × Str)) (msgType : Str) : Str :=
  "8=FIX.4.4".data ++ soh :: "9=".data ++ natToDigits ((fixBody fields msgType).length + 1)
    ++ soh :: fixBody fields msgType ++ [soh]

/-! ### Value model (src/src/models, src/src/core) -/

/-- `OrderSide` enum (src/src/models/order.py:13). -/
inductive OrderSide
  | buy
  | sell
deriving DecidableEq

/-- `OrderType` enum (src/src/models/order.py:19). -/
inductive OrderType
  | market
  | limit
  | stop
  | stopLimit
deriving DecidableEq

/-- `TimeInForce` enum (src/src/models/order.py:27). -/
inductive TimeInForce
  | day
  | gtc
  | ioc
  | fok
  | gtd
deriving DecidableEq

/-- `OrderStatus` enum (src/src/models/order.py:36). -/
inductive OrderStatus
  | new
  | pendingNew
  | partiallyFilled
  | filled
  | pendingCancel
  | canceled
  | rejected
  | expired
deriving DecidableEq

/-- `OptionType` enum (src/src/models/order.py:48). -/
inductive OptionType
  | call
  | put
deriving DecidableEq

/-- A Python `datetime.date`. -/
structure PyDate where
  year : Nat
  month : Nat
  day : Nat
deriving DecidableEq

/-- Total order key for dates (fields are kept in calendar range by the
parser, so the lexicographic order agrees with this key). -/
def dateKey (d : PyDate) : Nat := d.year * 10000 + d.month * 100 + d.day

/-- A Python `datetime.datetime` in UTC: calendar date plus microseconds
into the day. -/
structure PyDateTime where
  date : PyDate
  micro : Nat
deriving DecidableEq

/-- Total order key for datetimes. -/
def dateTimeKey (t : PyDateTime) : Nat := dateKey t.date * 86400000000 + t.micro

/-- The exception taxonomy of src/src/core/exceptions.py (plus Python's
built-in `ValueError`/`TypeError`, which the pipeline can also raise). -/
inductive AdapterError
  | orderValidation (msg : Str)
  | orderProcessing (msg : Str)
  | instrumentFault (msg : Str)
  | riskManagement (msg : Str)
  | fixConnection (msg : Str)
  | messageParsing (msg : Str)
  | pyValueError (msg : Str)
deriving DecidableEq

/-- The message carried by an exception (`str(e)`). -/
def errMsg : AdapterError → Str
  | .orderValidation m => m
  | .orderProcessing m => m
  | .instrumentFault m => m
  | .riskManagement m => m
  | .fixConnection m => m
  | .messageParsing m => m
  | .pyValueError m => m

/-- `str.upper()` per character. -/
def pyUpper (s : Str) : Str := s.map Char.toUpper

/-- Truthiness of an optional string (`None` and `""` are falsy). -/
def pyTruthyStr : Option Str → Bool
  | none => false
  | some s => !s.isEmpty

/-- Truthiness of an optional number (`None` and `0` are falsy). -/
def pyTruthyRat : Option ℚ → Bool
  | none => false
  | some q => q != 0

/-- Truthiness of an optional integer. -/
def pyTruthyInt : Option Int → Bool
  | none => false
  | some n => n != 0

/-- Python's `a or b` on an optional string against a string default. -/
def pyOrStr (a : Option Str) (b : Str) : Str :=
  match a with
  | none => b
  | some s => if s.isEmpty then b else s

/-- `d.get(k, v0)` on an association-list dict with arbitrary keys. -/
def pyGet {α β : Type} [DecidableEq α] (d : List (α × β)) (k : α) (v0 : β) : β :=
  match d with
  | [] => v0
  | p :: rest => if k = p.1 then p.2 else pyGet rest k v0

/-- `d.get(k)` returning `None` when missing. -/
def pyGet? {α β : Type} [DecidableEq α] (d : List (α × β)) (k : α) : Option β :=
  match d with
  | [] => none
  | p :: rest => if k = p.1 then some p.2 else pyGet? rest k

/-- `d[k] = v`: overwrite in place or append. -/
def pySet {α β : Type} [DecidableEq α] (d : List (α × β)) (k : α) (v : β) : List (α × β) :=
  if d.any (fun p => p.1 = k) then d.map (fun p => if p.1 = k then (k, v) else p)
  else d ++ [(k, v)]

/-- `[A-Za-z0-9_-]`. -/
def isIdentChar (c : Char) : Bool := c.isAlpha || c.isDigit || c = '_' || c = '-'

/-- `^[A-Za-z0-9_-]{1,50}$` (src/src/utils/validation.py:19). -/
def order_id_pattern (s : Str) : Bool :=
  decide (1 ≤ s.length) && decide (s.length ≤ 50) && s.all isIdentChar

/-- `^[A-Z]{1,12}$` (src/src/utils/validation.py:20). -/
def symbol_pattern (s : Str) : Bool :=
  decide (1 ≤ s.length) && decide (s.length ≤ 12) && s.all (fun c => c.isUpper)

/-- `^[A-Za-z0-9_-]{1,20}$` (src/src/utils/validation.py:21). -/
def account_pattern (s : Str) : Bool :=
  decide (1 ≤ s.length) && decide (s.length ≤ 20) && s.all isIdentChar

/-- Leap-year rule of the Gregorian calendar (Python `calendar.isleap`). -/
def isLeapYear (y : Nat) : Bool := y % 4 = 0 && (y % 100 ≠ 0 || y % 400 = 0)

/-- Days in a month. -/
def daysInMonth (y m : Nat) : Nat :=
  if m = 2 then (if isLeapYear y then 29 else 28)
  else if m = 4 ∨ m = 6 ∨ m = 9 ∨ m = 11 then 30
  else 31

/-- Numeric value of exactly `k` digits, or `none`. -/
def fixedDigits? (k : Nat) (s : Str) : Option Nat :=
  if s.length = k && s.all Char.isDigit then some (decValue s) else none

/-- `datetime.strptime(s, "%Y-%m-%d").date()`: four-digit year, two-digit
month and day, with calendar range checks; `ValueError` is `none`. -/
def parseDate? (s : Str) : Option PyDate :=
  match s with
  | [y1, y2, y3, y4, '-', m1, m2, '-', d1, d2] =>
    match fixedDigits? 4 [y1, y2, y3, y4], fixedDigits? 2 [m1, m2], fixedDigits? 2 [d1, d2] with
    | some y, some m, some d =>
      if 1 ≤ m ∧ m ≤ 12 ∧ 1 ≤ d ∧ d ≤ daysInMonth y m then some ⟨y, m, d⟩ else none
    | _, _, _ => none
  | _ => none

/-- `datetime.fromisoformat(s)` on the two shapes this adapter feeds it:
`YYYY-MM-DD` and `YYYY-MM-DDTHH:MM:SS`; anything else is `ValueError`. -/
def pyFromIso? (s : Str) : Option PyDateTime :=
  match parseDate? s with
  | some d => some ⟨d, 0⟩
  | none =>
    match s.length with
    | 19 =>
      match parseDate? (s.take 10), s.drop 10 with
      | some d, ['T', h1, h2, ':', n1, n2, ':', s1, s2] =>
        match fixedDigits? 2 [h1, h2], fixedDigits? 2 [n1, n2], fixedDigits? 2 [s1, s2] with
        | some hh, some nn, some ss =>
          if hh ≤ 23 ∧ nn ≤ 59 ∧ ss ≤ 59 then
            some ⟨d, ((hh * 60 + nn) * 60 + ss) * 1000000⟩
          else none
        | _, _, _ => none
      | _, _ => none
    | _ => none

/-- `OrderRequest` dataclass (src/src/models/order.py:56).  Numeric fields
(`float`, `Decimal`) are modelled as exact rationals, `int` as `Int`;
`timestamp` and `extra_fields` are metadata never read by the pipeline and
are omitted. -/
structure OrderRequest where
  order_id : Str
  symbol : Str
  side : Str
  quantity : Int
  price : Option ℚ := none
  order_type : Str := "LIMIT".data
  time_in_force : Str := "DAY".data
  account : Option Str := none
  strike_price : Option ℚ := none
  expiry_date : Option Str := none
  option_type : Option Str := none
  client_order_id : Option Str := none
  stop_price : Option ℚ := none
  expire_time : Option Str := none
  min_quantity : Option Int := none
  max_show : Option Int := none
  text : Option Str := none
  source : Option Str := none
deriving DecidableEq

/-- `OrderRequest.__post_init__` (src/src/models/order.py:85): default
`client_order_id` to `order_id` when `None`. -/
def OrderRequest.postInit (r : OrderRequest) : OrderRequest :=
  match r.client_order_id with
  | none => { r with client_order_id := some r.order_id }
  | some _ => r

/-- `SPXWInstrument` dataclass (src/src/models/spxw_instruments.py:29),
restricted to the fields the pipeline reads. -/
structure SPXWInstrument where
  symbol : Str
  underlying_symbol : Str
  strike_price : ℚ
  expiry_date : PyDate
  option_type : Str
  contract_size : Int := 100
  currency : Str := "USD".data
  exchange : Str := "CBOE".data
  security_type : Str := "OPT".data
  security_id : Option Str := none
  security_id_source : Str := "8".data
  is_tradable : Bool := true
  last_trading_date : Option PyDate := none
deriving DecidableEq

/-- Zero-pad a digit string on the left to width `w`. -/
def padZeros (w : Nat) (s : Str) : Str := List.replicate (w - s.length) '0' ++ s

/-- Python `f"{n:08d}"` (total width 8, sign included for negatives). -/
def pyFormat08d (i : Int) : Str :=
  if i < 0 then '-' :: padZeros 7 (natToDigits i.natAbs) else padZeros 8 (natToDigits i.natAbs)

/-- `strftime("%y%m%d")`: two-digit year, month, day, zero-padded. -/
def strftimeYYMMDD (d : PyDate) : Str :=
  padZeros 2 (natToDigits (d.year % 100)) ++ padZeros 2 (natToDigits d.month)
    ++ padZeros 2 (natToDigits d.day)

/-- `int(q)` on a Python `Decimal`: truncation toward zero. -/
def pyIntOfRat (q : ℚ) : Int := q.num.tdiv (q.den : Int)

/-- `SPXWInstrument.generate_security_id` (src/src/models/spxw_instruments.py:68):
note the hard-coded `SPXW` prefix — `self.symbol` is not used. -/
def SPXWInstrument.generate_security_id (i : SPXWInstrument) : Str :=
  "SPXW_".data ++ strftimeYYMMDD i.expiry_date ++ "_".data
    ++ (if pyUpper i.option_type = "CALL".data then "C".data else "P".data)
    ++ "_".data ++ pyFormat08d (pyIntOfRat (i.strike_price * 1000))

/-- Modelled from the spec's words (§3): the canonical encoding
`{symbol}_{YY}{MM}{DD}_{C|P}_{strike*1000, zero-padded to 8 digits}`,
with the instrument's own symbol as the prefix.  Used only to compare the
source's encoding against the specified one. -/
def specSecurityId (i : SPXWInstrument) : Str :=
  i.symbol ++ "_".data ++ strftimeYYMMDD i.expiry_date ++ "_".data
    ++ (if pyUpper i.option_type = "CALL".data then "C".data else "P".data)
    ++ "_".data ++ pyFormat08d (pyIntOfRat (i.strike_price * 1000))

/-- `SPXWInstrument.__post_init__` (src/src/models/spxw_instruments.py:60). -/
def SPXWInstrument.postInit (i : SPXWInstrument) : SPXWInstrument :=
  let i1 := match i.last_trading_date with
    | none => { i with last_trading_date := some i.expiry_date }
    | some _ => i
  match i1.security_id with
  | none => { i1 with security_id := some i1.generate_security_id }
  | some _ => i1

/-- `SPXWInstrument.is_expired` (src/src/models/spxw_instruments.py:108):
`date.today() > expiry_date`, with today passed explicitly. -/
def SPXWInstrument.is_expired (i : SPXWInstrument) (today : PyDate) : Bool :=
  dateKey today > dateKey i.expiry_date

/-- `SPXWInstrumentFactory.create_option` (src/src/models/spxw_instruments.py:186). -/
def SPXWInstrumentFactory.create_option (strike_price : ℚ) (expiry_date : PyDate)
    (option_type : Str) : SPXWInstrument :=
  SPXWInstrument.postInit
    { symbol := "SPXW".data
      underlying_symbol := "SPX".data
      strike_price := strike_price
      expiry_date := expiry_date
      option_type := pyUpper option_type }

/-- `RiskLimits` (src/src/core/config.py:41). -/
structure RiskLimits where
  max_order_size : Int := 1000
  max_daily_volume : Int := 10000
  max_orders_per_second : Nat := 10
  max_position_size : Int := 5000
  enabled : Bool := true
deriving DecidableEq

/-- `TradingConfig` (src/src/core/config.py:52), restricted to the fields
the pipeline reads. -/
structure TradingConfig where
  default_currency : Str := "USD".data
  default_exchange : Str := "CBOE".data
  risk_limits : RiskLimits := {}
deriving DecidableEq

/-- `AppConfig` (src/src/core/config.py:93), restricted to `trading`. -/
structure AppConfig where
  trading : TradingConfig := {}
deriving DecidableEq

/-- `ProcessedOrder` dataclass (src/src/models/order.py:96).  Wall-clock
fields (`created_time`, `updated_time`) are integer timestamps supplied by
the caller; `fix_messages` and `original_request` metadata are omitted. -/
structure ProcessedOrder where
  order_id : Str
  client_order_id : Str
  symbol : Str
  side : OrderSide
  quantity : Int
  order_type : OrderType
  time_in_force : TimeInForce
  account : Str
  price : Option ℚ := none
  stop_price : Option ℚ := none
  strike_price : Option ℚ := none
  expiry_date : Option PyDate := none
  option_type : Option OptionType := none
  security_id : Option Str := none
  security_id_source : Option Str := none
  security_type : Str := "OPT".data
  security_exchange : Str := "CBOE".data
  currency : Str := "USD".data
  status : OrderStatus := .new
  created_time : Int := 0
  updated_time : Int := 0
  expire_time : Option PyDateTime := none
  min_quantity : Option Int := none
  max_show : Option Int := none
  text : Option Str := none
  filled_quantity : Int := 0
  remaining_quantity : Int := 0
  avg_price : Option ℚ := none
  last_price : Option ℚ := none
  last_quantity : Option Int := none
  order_capacity : Option Str := none
  order_restrictions : Option Str := none
  clearing_account : Option Str := none
  source : Option Str := none
deriving DecidableEq

/-- `ProcessedOrder.__post_init__` (src/src/models/order.py:151):
`remaining_quantity = quantity - filled_quantity`. -/
def ProcessedOrder.postInit (p : ProcessedOrder) : ProcessedOrder :=
  { p with remaining_quantity := p.quantity - p.filled_quantity }

/-- `ProcessedOrder.update_status` (src/src/models/order.py:155). -/
def ProcessedOrder.update_status (p : ProcessedOrder) (status : OrderStatus)
    (now : Int) : ProcessedOrder :=
  { p with status := status, updated_time := now }

/-- `ProcessedOrder.add_fill` (src/src/models/order.py:160).  The average
price is computed with exact rational arithmetic in place of `Decimal`
division; the quantity bookkeeping is exact in both. -/
def ProcessedOrder.add_fill (p : ProcessedOrder) (fill_quantity : Int) (fill_price : ℚ)
    (now : Int) : ProcessedOrder :=
  let filled := p.filled_quantity + fill_quantity
  let p1 := { p with
    filled_quantity := filled
    remaining_quantity := p.quantity - filled
    last_quantity := some fill_quantity
    last_price := some fill_price }
  let avg := match p.avg_price with
    | none => fill_price
    | some a =>
      (a * ((filled - fill_quantity : Int) : ℚ) + fill_price * ((fill_quantity : Int) : ℚ))
        / ((filled : Int) : ℚ)
  let p2 := { p1 with avg_price := some avg }
  if p2.remaining_quantity = 0 then p2.update_status .filled now
  else p2.update_status .partiallyFilled now

/-- `ProcessedOrder.is_complete` (src/src/models/order.py:180). -/
def ProcessedOrder.is_complete (p : ProcessedOrder) : Bool :=
  p.status = .filled ∨ p.status = .canceled ∨ p.status = .rejected ∨ p.status = .expired

/-! ### Validator (src/src/utils/validation.py) -/

/-- `OrderValidator._validate_required_fields` (validation.py:48).
`not order.quantity or order.quantity <= 0` is `quantity ≤ 0` on an int. -/
def OrderValidator._validate_required_fields (o : OrderRequest) : Except AdapterError Unit :=
  if o.order_id.isEmpty then .error (.orderValidation "order_id is required".data)
  else if o.symbol.isEmpty then .error (.orderValidation "symbol is required".data)
  else if o.side.isEmpty then .error (.orderValidation "side is required".data)
  else if o.quantity ≤ 0 then
    .error (.orderValidation "quantity is required and must be positive".data)
  else if o.order_type.isEmpty then .error (.orderValidation "order_type is required".data)
  else if o.time_in_force.isEmpty then .error (.orderValidation "time_in_force is required".data)
  else .ok ()

/-- `order.account and not account_pattern.match(order.account)`. -/
def accountFormatBad (acc : Option Str) : Bool :=
  match acc with
  | none => false
  | some a => !a.isEmpty && !account_pattern a

/-- `order.client_order_id and not order_id_pattern.match(...)`. -/
def clientOrderIdFormatBad (c : Option Str) : Bool :=
  match c with
  | none => false
  | some a => !a.isEmpty && !order_id_pattern a

/-- `OrderValidator._validate_formats` (validation.py:68). -/
def OrderValidator._validate_formats (o : OrderRequest) : Except AdapterError Unit :=
  if !order_id_pattern o.order_id then
    .error (.orderValidation "order_id must be alphanumeric with underscores/hyphens, max 50 chars".data)
  else if !symbol_pattern o.symbol then
    .error (.orderValidation "symbol must be uppercase letters only, max 12 chars".data)
  else if accountFormatBad o.account then
    .error (.orderValidation "account must be alphanumeric with underscores/hyphens, max 20 chars".data)
  else if clientOrderIdFormatBad o.client_order_id then
    .error (.orderValidation "client_order_id must be alphanumeric with underscores/hyphens, max 50 chars".data)
  else .ok ()

/-- `option_type and option_type.upper() not in {"CALL", "PUT"}`. -/
def optionTypeBad (ot : Option Str) : Bool :=
  match ot with
  | none => false
  | some s => !s.isEmpty && !(["CALL".data, "PUT".data].contains (pyUpper s))

/-- `price is None or price <= 0` under the LIMIT/STOP_LIMIT requirement. -/
def priceRequirementBad (orderTypeUpper : Str) (price : Option ℚ) : Bool :=
  (["LIMIT".data, "STOP_LIMIT".data].contains orderTypeUpper) &&
    (match price with
     | none => true
     | some p => decide (p ≤ 0))

/-- `stop_price is None or stop_price <= 0` under the STOP/STOP_LIMIT rule. -/
def stopRequirementBad (orderTypeUpper : Str) (stop : Option ℚ) : Bool :=
  (["STOP".data, "STOP_LIMIT".data].contains orderTypeUpper) &&
    (match stop with
     | none => true
     | some p => decide (p ≤ 0))

/-- The expiry-date branch of `_validate_business_logic` (validation.py:134). -/
def checkExpiryDateFuture (today : PyDate) (ed : Option Str) : Except AdapterError Unit :=
  match ed with
  | none => .ok ()
  | some e =>
    if e.isEmpty then .ok ()
    else
      match parseDate? e with
      | none => .error (.orderValidation "expiry_date must be in YYYY-MM-DD format".data)
      | some d =>
        if dateKey d ≤ dateKey today then
          .error (.orderValidation "expiry_date must be in the future".data)
        else .ok ()

/-- The expire-time branch of `_validate_business_logic` (validation.py:142). -/
def checkExpireTimeFuture (nowDT : PyDateTime) (et : Option Str) : Except AdapterError Unit :=
  match et with
  | none => .ok ()
  | some e =>
    if e.isEmpty then .ok ()
    else
      match pyFromIso? e with
      | none => .error (.orderValidation "expire_time must be in ISO format".data)
      | some t =>
        if dateTimeKey t ≤ dateTimeKey nowDT then
          .error (.orderValidation "expire_time must be in the future".data)
        else .ok ()

/-- `OrderValidator._validate_business_logic` (validation.py:94). -/
def OrderValidator._validate_business_logic (today : PyDate) (nowDT : PyDateTime)
    (o : OrderRequest) : Except AdapterError Unit :=
  if !(["BUY".data, "SELL".data].contains (pyUpper o.side)) then
    .error (.orderValidation "side must be one of BUY, SELL".data)
  else if !(["MARKET".data, "LIMIT".data, "STOP".data, "STOP_LIMIT".data].contains
      (pyUpper o.order_type)) then
    .error (.orderValidation "order_type must be one of MARKET, LIMIT, STOP, STOP_LIMIT".data)
  else if !(["DAY".data, "GTC".data, "IOC".data, "FOK".data, "GTD".data].contains
      (pyUpper o.time_in_force)) then
    .error (.orderValidation "time_in_force must be one of DAY, GTC, IOC, FOK, GTD".data)
  else if optionTypeBad o.option_type then
    .error (.orderValidation "option_type must be one of CALL, PUT".data)
  else if priceRequirementBad (pyUpper o.order_type) o.price then
    .error (.orderValidation "price is required and must be positive".data)
  else if stopRequirementBad (pyUpper o.order_type) o.stop_price then
    .error (.orderValidation "stop_price is required and must be positive".data)
  else
    match checkExpiryDateFuture today o.expiry_date with
    | .error e => .error e
    | .ok _ => checkExpireTimeFuture nowDT o.expire_time

/-- `Decimal("0.01")`. -/
def minPriceQ : ℚ := mkRat 1 100

/-- `Decimal("999999.99")`. -/
def maxPriceQ : ℚ := mkRat 99999999 100

/-- `OrderValidator._validate_ranges` (validation.py:151). -/
def OrderValidator._validate_ranges (o : OrderRequest) : Except AdapterError Unit :=
  if o.quantity > 1000000 then
    .error (.orderValidation "quantity exceeds maximum".data)
  else if (match o.price with
           | none => false
           | some p => decide (p < minPriceQ) || decide (p > maxPriceQ)) then
    .error (.orderValidation "price must be between 0.01 and 999999.99".data)
  else if (match o.stop_price with
           | none => false
           | some p => decide (p < minPriceQ) || decide (p > maxPriceQ)) then
    .error (.orderValidation "stop_price must be between 0.01 and 999999.99".data)
  else if (match o.strike_price with
           | none => false
           | some s => decide (s ≤ 0) || decide (s > maxPriceQ)) then
    .error (.orderValidation "strike_price must be positive".data)
  else if (match o.min_quantity with
           | none => false
           | some m => decide (m ≤ 0) || decide (m > o.quantity)) then
    .error (.orderValidation "min_quantity must be positive and <= order quantity".data)
  else if (match o.max_show with
           | none => false
           | some m => decide (m ≤ 0) || decide (m > o.quantity)) then
    .error (.orderValidation "max_show must be positive and <= order quantity".data)
  else .ok ()

/-- `OrderValidator.validate_order_request` (validation.py:34). -/
def OrderValidator.validate_order_request (today : PyDate) (nowDT : PyDateTime)
    (o : OrderRequest) : Except AdapterError Unit :=
  match OrderValidator._validate_required_fields o with
  | .error e => .error e
  | .ok _ =>
    match OrderValidator._validate_formats o with
    | .error e => .error e
    | .ok _ =>
      match OrderValidator._validate_business_logic today nowDT o with
      | .error e => .error e
      | .ok _ => OrderValidator._validate_ranges o

/-! ### Order Processor (src/src/processors/order_processor.py) -/

/-- The SPXW block of `OrderProcessor._validate_business_rules`
(order_processor.py:96-113). -/
def OrderProcessor.spxwBusinessRules (today : PyDate) (o : OrderRequest) :
    Except AdapterError Unit :=
  if !pyTruthyRat o.strike_price then
    .error (.orderValidation "Strike price required for SPXW options".data)
  else if !pyTruthyStr o.expiry_date then
    .error (.orderValidation "Expiry date required for SPXW options".data)
  else if !pyTruthyStr o.option_type then
    .error (.orderValidation "Option type (CALL/PUT) required for SPXW options".data)
  else
    match parseDate? ((o.expiry_date).getD []) with
    | none => .error (.orderValidation "Invalid expiry date format. Use YYYY-MM-DD".data)
    | some d =>
      if dateKey d ≤ dateKey today then
        .error (.orderValidation "Expiry date must be in the future".data)
      else .ok ()

/-- `OrderProcessor._validate_business_rules` (order_processor.py:94).  Note
the price-presence rules here test `order_type` verbatim (no `.upper()`). -/
def OrderProcessor._validate_business_rules (today : PyDate) (o : OrderRequest) :
    Except AdapterError Unit :=
  match (if o.symbol = "SPXW".data then OrderProcessor.spxwBusinessRules today o
         else (.ok () : Except AdapterError Unit)) with
  | .error e => .error e
  | .ok _ =>
    if (match o.price with | none => false | some p => decide (p ≤ 0)) then
      .error (.orderValidation "Price must be positive".data)
    else if o.quantity ≤ 0 then
      .error (.orderValidation "Quantity must be positive".data)
    else if (["LIMIT".data, "STOP_LIMIT".data].contains o.order_type && o.price = none) then
      .error (.orderValidation "Price required for order type".data)
    else if (["STOP".data, "STOP_LIMIT".data].contains o.order_type && o.stop_price = none) then
      .error (.orderValidation "Stop price required for order type".data)
    else .ok ()

/-- `OrderProcessor._validate_order` (order_processor.py:81): any failure is
re-raised as `OrderValidationError`. -/
def OrderProcessor._validate_order (today : PyDate) (nowDT : PyDateTime)
    (o : OrderRequest) : Except AdapterError Unit :=
  match ((match OrderValidator.validate_order_request today nowDT o with
          | .error e => .error e
          | .ok _ => OrderProcessor._validate_business_rules today o) :
      Except AdapterError Unit) with
  | .error e => .error (.orderValidation ("Order validation failed: ".data ++ errMsg e))
  | .ok _ => .ok ()

/-- `OrderProcessor._resolve_instrument` (order_processor.py:129): builds the
SPXW instrument for `symbol == "SPXW"`, `None` otherwise; every failure is
re-raised as `InstrumentError`.  Python-level faults (`strptime` on `None`,
`Decimal(str(None))`, `None.upper()`) are the `pyValueError` branches. -/
def OrderProcessor.resolveInstrumentInner (today : PyDate) (o : OrderRequest) :
    Except AdapterError (Option SPXWInstrument) :=
  if o.symbol = "SPXW".data then
    match o.expiry_date with
    | none => .error (.pyValueError "strptime() argument 1 must be str".data)
    | some e =>
      match parseDate? e with
      | none => .error (.pyValueError "time data does not match format".data)
      | some expiry =>
        match o.strike_price with
        | none => .error (.pyValueError "invalid Decimal literal".data)
        | some strike =>
          match o.option_type with
          | none => .error (.pyValueError "NoneType has no attribute upper".data)
          | some ot =>
            let inst := SPXWInstrumentFactory.create_option strike expiry ot
            if inst.is_expired today then
              .error (.instrumentFault "Option has expired".data)
            else if !inst.is_tradable then
              .error (.instrumentFault "Instrument is not tradable".data)
            else .ok (some inst)
  else .ok none

def OrderProcessor._resolve_instrument (today : PyDate) (o : OrderRequest) :
    Except AdapterError (Option SPXWInstrument) :=
  match OrderProcessor.resolveInstrumentInner today o with
  | .error e => .error (.instrumentFault ("Failed to resolve instrument: ".data ++ errMsg e))
  | .ok v => .ok v

/-- `OrderSide(s)` enum construction: `ValueError` if not a member. -/
def pyOrderSide? (s : Str) : Option OrderSide :=
  if s = "BUY".data then some .buy
  else if s = "SELL".data then some .sell
  else none

/-- `OrderType(s)`. -/
def pyOrderType? (s : Str) : Option OrderType :=
  if s = "MARKET".data then some .market
  else if s = "LIMIT".data then some .limit
  else if s = "STOP".data then some .stop
  else if s = "STOP_LIMIT".data then some .stopLimit
  else none

/-- `TimeInForce(s)`. -/
def pyTimeInForce? (s : Str) : Option TimeInForce :=
  if s = "DAY".data then some .day
  else if s = "GTC".data then some .gtc
  else if s = "IOC".data then some .ioc
  else if s = "FOK".data then some .fok
  else if s = "GTD".data then some .gtd
  else none

/-- `OptionType(s)`. -/
def pyOptionType? (s : Str) : Option OptionType :=
  if s = "CALL".data then some .call
  else if s = "PUT".data then some .put
  else none

/-- The base `ProcessedOrder(...)` construction of `_create_processed_order`
(order_processor.py:172-186).  Note `account = order_request.account or
config.trading.default_currency` on line 180 and `client_order_id or
order_id` on line 174. -/
def OrderProcessor.baseProcessedOrder (cfg : AppConfig) (o : OrderRequest)
    (side : OrderSide) (order_type : OrderType) (time_in_force : TimeInForce) :
    ProcessedOrder :=
  ProcessedOrder.postInit
    { order_id := o.order_id
      client_order_id := pyOrStr o.client_order_id o.order_id
      symbol := o.symbol
      side := side
      quantity := o.quantity
      order_type := order_type
      time_in_force := time_in_force
      account := pyOrStr o.account cfg.trading.default_currency
      price := if pyTruthyRat o.price then o.price else none
      stop_price := if pyTruthyRat o.stop_price then o.stop_price else none
      text := o.text
      source := o.source }

/-- The instrument-or-default assignments of `_create_processed_order`
(order_processor.py:188-201); `OptionType(instrument.option_type)` can
raise `ValueError`. -/
def OrderProcessor.applyInstrumentFields (cfg : AppConfig) (base : ProcessedOrder)
    (inst : Option SPXWInstrument) : Except AdapterError ProcessedOrder :=
  match inst with
  | some i =>
    match pyOptionType? i.option_type with
    | none => .error (.pyValueError "is not a valid OptionType".data)
    | some iot =>
      .ok { base with
        strike_price := some i.strike_price
        expiry_date := some i.expiry_date
        option_type := some iot
        security_id := i.security_id
        security_id_source := some i.security_id_source
        security_type := i.security_type
        security_exchange := i.exchange
        currency := i.currency }
  | none =>
    .ok { base with
      security_exchange := cfg.trading.default_exchange
      currency := cfg.trading.default_currency }

/-- The optional-field assignments of `_create_processed_order`
(order_processor.py:203-214); an unparsable `expire_time` only logs a
warning. -/
def OrderProcessor.applyOptionalFields (o : OrderRequest) (p0 : ProcessedOrder) :
    ProcessedOrder :=
  let p1 := if pyTruthyInt o.min_quantity then { p0 with min_quantity := o.min_quantity }
    else p0
  let p2 := if pyTruthyInt o.max_show then { p1 with max_show := o.max_show } else p1
  match o.expire_time with
  | some s =>
    if s.isEmpty then p2
    else
      match pyFromIso? s with
      | some t => { p2 with expire_time := some t }
      | none => p2
  | none => p2

/-- `OrderProcessor._create_processed_order` (order_processor.py:159): map
the enums (each can raise `ValueError`), build the base order, add the
instrument-or-default fields, then the optional fields. -/
def OrderProcessor._create_processed_order (cfg : AppConfig) (o : OrderRequest)
    (inst : Option SPXWInstrument) : Except AdapterError ProcessedOrder :=
  match pyOrderSide? (pyUpper o.side) with
  | none => .error (.pyValueError "is not a valid OrderSide".data)
  | some side =>
    match pyOrderType? (pyUpper o.order_type) with
    | none => .error (.pyValueError "is not a valid OrderType".data)
    | some order_type =>
      match pyTimeInForce? (pyUpper o.time_in_force) with
      | none => .error (.pyValueError "is not a valid TimeInForce".data)
      | some time_in_force =>
        match OrderProcessor.applyInstrumentFields cfg
            (OrderProcessor.baseProcessedOrder cfg o side order_type time_in_force) inst with
        | .error e => .error e
        | .ok p0 => .ok (OrderProcessor.applyOptionalFields o p0)

/-- `OrderProcessor._enrich_order` (order_processor.py:218). -/
def OrderProcessor._enrich_order (o : ProcessedOrder) : ProcessedOrder :=
  let o1 := if pyTruthyStr o.clearing_account then o
    else { o with clearing_account := some o.account }
  if pyTruthyStr o1.order_capacity then o1 else { o1 with order_capacity := some "A".data }

/-! ### Risk Processor (src/src/processors/risk_processor.py) -/

/-- One entry of `RiskProcessor.order_history` (risk_processor.py:160). -/
structure OrderRecord where
  order_id : Str
  symbol : Str
  quantity : Int
  timestamp : Int
deriving DecidableEq

/-- The mutable state of `RiskProcessor` (risk_processor.py:24-42).
Timestamps are UTC microseconds. -/
structure RiskState where
  daily_volumes : List (Str × Int) := []
  daily_orders : List (Str × Int) := []
  positions : List (Str × Int) := []
  order_history : List OrderRecord := []
  last_reset_date : PyDate
deriving DecidableEq

/-- `timedelta(seconds=1)` in microseconds. -/
def oneSecondMicros : Int := 1000000

/-- `timedelta(minutes=5)` in microseconds. -/
def fiveMinutesMicros : Int := 300000000

/-- `RiskProcessor._check_order_size` (risk_processor.py:78). -/
def RiskProcessor._check_order_size (limits : RiskLimits) (o : ProcessedOrder) :
    Except AdapterError Unit :=
  if o.quantity > limits.max_order_size then
    .error (.riskManagement "Order size exceeds maximum allowed".data)
  else .ok ()

/-- `RiskProcessor._check_daily_volume` (risk_processor.py:85). -/
def RiskProcessor._check_daily_volume (limits : RiskLimits) (st : RiskState)
    (o : ProcessedOrder) : Except AdapterError Unit :=
  if pyGet st.daily_volumes o.symbol 0 + o.quantity > limits.max_daily_volume then
    .error (.riskManagement "Daily volume limit exceeded".data)
  else .ok ()

/-- `RiskProcessor._check_position_limits` (risk_processor.py:96). -/
def RiskProcessor._check_position_limits (limits : RiskLimits) (st : RiskState)
    (o : ProcessedOrder) : Except AdapterError Unit :=
  let quantity_delta := match o.side with
    | .buy => o.quantity
    | .sell => -o.quantity
  let new_position := pyGet st.positions o.symbol 0 + quantity_delta
  if limits.max_position_size < (new_position.natAbs : Int) then
    .error (.riskManagement "Position limit exceeded".data)
  else .ok ()

/-- `RiskProcessor._check_order_rate` (risk_processor.py:110): count history
entries strictly newer than one second ago; reject when the count reaches
`max_orders_per_second`. -/
def RiskProcessor._check_order_rate (limits : RiskLimits) (now : Int) (st : RiskState) :
    Except AdapterError Unit :=
  let recent := st.order_history.filter (fun r => r.timestamp > now - oneSecondMicros)
  if limits.max_orders_per_second ≤ recent.length then
    .error (.riskManagement "Order rate limit exceeded".data)
  else .ok ()

/-- The strike sanity check of `_check_spxw_risks` (risk_processor.py:145). -/
def RiskProcessor.spxwStrikeCheck (o : ProcessedOrder) : Except AdapterError Unit :=
  if (match o.strike_price with
      | none => false
      | some s => s != 0 && decide (s ≤ 0)) then
    .error (.riskManagement "Invalid strike price".data)
  else .ok ()

/-- `RiskProcessor._check_spxw_risks` (risk_processor.py:132).  The
`days_to_expiry < 1` test on integer day differences is equivalent to
`expiry_date ≤ today`; the low-price case only logs a warning. -/
def RiskProcessor._check_spxw_risks (today : PyDate) (o : ProcessedOrder) :
    Except AdapterError Unit :=
  match o.expiry_date with
  | none => RiskProcessor.spxwStrikeCheck o
  | some d =>
    if dateKey d ≤ dateKey today then
      .error (.riskManagement "Cannot trade expired options".data)
    else if dateKey d ≤ dateKey today then
      .error (.riskManagement "Cannot trade options expiring within 1 day".data)
    else RiskProcessor.spxwStrikeCheck o

/-- `RiskProcessor._check_instrument_specific_risks` (risk_processor.py:127). -/
def RiskProcessor._check_instrument_specific_risks (today : PyDate) (o : ProcessedOrder) :
    Except AdapterError Unit :=
  if o.symbol = "SPXW".data then RiskProcessor._check_spxw_risks today o else .ok ()

/-- `RiskProcessor._record_order` (risk_processor.py:152): bump the daily
counters, append the order to the history, prune entries older than five
minutes. -/
def RiskProcessor._record_order (now : Int) (st : RiskState) (o : ProcessedOrder) :
    RiskState :=
  { st with
    daily_volumes := pySet st.daily_volumes o.symbol
      (pyGet st.daily_volumes o.symbol 0 + o.quantity)
    daily_orders := pySet st.daily_orders o.symbol (pyGet st.daily_orders o.symbol 0 + 1)
    order_history :=
      (st.order_history ++
          [({ order_id := o.order_id, symbol := o.symbol, quantity := o.quantity,
              timestamp := now } : OrderRecord)]).filter
        (fun r => r.timestamp > now - fiveMinutesMicros) }

/-- `RiskProcessor._check_daily_reset` (risk_processor.py:175). -/
def RiskProcessor._check_daily_reset (today : PyDate) (st : RiskState) : RiskState :=
  if dateKey st.last_reset_date < dateKey today then
    { st with daily_volumes := [], daily_orders := [], last_reset_date := today }
  else st

/-- `RiskProcessor.check_order` (risk_processor.py:44): skip everything when
risk is disabled; otherwise daily reset, the five checks in order, then
record. -/
def RiskProcessor.check_order (limits : RiskLimits) (today : PyDate) (now : Int)
    (st : RiskState) (o : ProcessedOrder) : Except AdapterError RiskState :=
  if !limits.enabled then .ok st
  else
    let st1 := RiskProcessor._check_daily_reset today st
    match RiskProcessor._check_order_size limits o with
    | .error e => .error e
    | .ok _ =>
      match RiskProcessor._check_daily_volume limits st1 o with
      | .error e => .error e
      | .ok _ =>
        match RiskProcessor._check_position_limits limits st1 o with
        | .error e => .error e
        | .ok _ =>
          match RiskProcessor._check_order_rate limits now st1 with
          | .error e => .error e
          | .ok _ =>
            match RiskProcessor._check_instrument_specific_risks today o with
            | .error e => .error e
            | .ok _ => .ok (RiskProcessor._record_order now st1 o)

/-- `RiskProcessor.update_position` (risk_processor.py:186). -/
def RiskProcessor.update_position (st : RiskState) (symbol : Str) (quantity : Int)
    (side : Str) : RiskState :=
  let quantity_delta := if side = "BUY".data then quantity else -quantity
  { st with positions := pySet st.positions symbol (pyGet st.positions symbol 0 + quantity_delta) }

/-- The pipeline body of `OrderProcessor.process_order`
(order_processor.py:48-74): validate, resolve, create, risk-check, enrich. -/
def OrderProcessor.processOrderInner (cfg : AppConfig) (today : PyDate)
    (nowDT : PyDateTime) (now : Int) (st : RiskState) (req : OrderRequest) :
    Except AdapterError (ProcessedOrder × RiskState) :=
  match OrderProcessor._validate_order today nowDT req with
  | .error e => .error e
  | .ok _ =>
    match OrderProcessor._resolve_instrument today req with
    | .error e => .error e
    | .ok inst =>
      match OrderProcessor._create_processed_order cfg req inst with
      | .error e => .error e
      | .ok po =>
        match RiskProcessor.check_order cfg.trading.risk_limits today now st po with
        | .error e => .error e
        | .ok st' => .ok (OrderProcessor._enrich_order po, st')

/-- `OrderProcessor.process_order` (order_processor.py:40): the wrapping
`except Exception` turns every failure into `OrderProcessingError`. -/
def OrderProcessor.process_order (cfg : AppConfig) (today : PyDate)
    (nowDT : PyDateTime) (now : Int) (st : RiskState) (req : OrderRequest) :
    Except AdapterError (ProcessedOrder × RiskState) :=
  match OrderProcessor.processOrderInner cfg today nowDT now st req with
  | .ok r => .ok r
  | .error e => .error (.orderProcessing ("Order processing failed: ".data ++ errMsg e))

/-- The four §7 failure kinds named by the spec for the order pipeline
(`ValidationError`, `InstrumentError`, `RiskError`, `ProcessingError`). -/
def isTypedFailure : AdapterError → Bool
  | .orderValidation _ => true
  | .instrumentFault _ => true
  | .riskManagement _ => true
  | .orderProcessing _ => true
  | _ => false

/-! ### FIX Gateway (src/src/services/fix_gateway.py) -/

/-- The order-tracking state of `FixGatewayService` (fix_gateway.py:22-33). -/
structure FixGatewayState where
  connected : Bool := false
  session_id : Option Str := none
  pending_orders : List (Str × ProcessedOrder) := []
deriving DecidableEq

/-- `FixGatewayService.send_order` (fix_gateway.py:109).  `sendFails` models
`fix.Session.sendToTarget` raising.  The result carries the state after
the exception as well, because the method mutates `pending_orders` before
sending and does not roll the insertion back on failure; every exception
is re-raised as `OrderProcessingError` (line 135). -/
def FixGatewayService.send_order (g : FixGatewayState) (sendFails : Bool)
    (o : ProcessedOrder) : Except (AdapterError × FixGatewayState) FixGatewayState :=
  if !g.connected then
    .error (.orderProcessing "Failed to send order: FIX session not connected".data, g)
  else
    let g1 := { g with pending_orders := pySet g.pending_orders o.client_order_id o }
    match g1.session_id with
    | some _ =>
      if sendFails then .error (.orderProcessing "Failed to send order".data, g1)
      else .ok g1
    | none => .error (.orderProcessing "Failed to send order: No active FIX session".data, g1)

/-! ### Execution-report parsing (src/src/processors/fix_processor.py,
src/src/models/order.py) -/

/-- `ExecutionReport` dataclass (src/src/models/order.py:211). -/
structure ExecutionReport where
  order_id : Str
  exec_id : Str
  exec_type : Str
  order_status : Str
  side : Str
  symbol : Str
  order_qty : Int
  cum_qty : Int
  leaves_qty : Int
  last_qty : Option Int := none
  price : Option ℚ := none
  last_px : Option ℚ := none
  avg_px : Option ℚ := none
  transact_time : Option PyDateTime := none
  text : Option Str := none
  exec_ref_id : Option Str := none
deriving DecidableEq

/-- The `__init__` parameters generated for the `ExecutionReport` dataclass
(src/src/models/order.py:211-236): exactly its declared fields.  Note it
declares neither `orig_client_order_id` nor `account` (nor
`client_order_id`). -/
def executionReportFieldNames : List Str :=
  ["order_id".data, "exec_id".data, "exec_type".data, "order_status".data, "side".data,
   "symbol".data, "order_qty".data, "cum_qty".data, "leaves_qty".data, "last_qty".data,
   "price".data, "last_px".data, "avg_px".data, "transact_time".data, "text".data,
   "exec_ref_id".data]

/-- The keyword arguments `FixMessageProcessor.parse_execution_report` passes
to `ExecutionReport(...)` (src/src/processors/fix_processor.py:169-187). -/
def parseExecutionReportCallKwargs : List Str :=
  ["order_id".data, "exec_id".data, "exec_type".data, "order_status".data, "side".data,
   "symbol".data, "order_qty".data, "cum_qty".data, "leaves_qty".data, "last_qty".data,
   "avg_px".data, "last_px".data, "transact_time".data, "orig_client_order_id".data,
   "exec_ref_id".data, "text".data, "account".data]

/-- A Python dataclass call succeeds only if every keyword argument names a
declared field (otherwise `TypeError: unexpected keyword argument`). -/
def dataclassCallAccepted (declared kwargs : List Str) : Bool :=
  kwargs.all (fun k => declared.contains k)

/-- The digits-with-optional-fraction part of `Decimal(s)`. -/
def decFrac? (s : Str) : Option ℚ :=
  let intPart := s.takeWhile Char.isDigit
  match s.dropWhile Char.isDigit with
  | [] => if intPart.isEmpty then none else some ((decValue intPart : ℚ))
  | '.' :: frac =>
    if (intPart.isEmpty && frac.isEmpty) || !frac.all Char.isDigit then none
    else some ((decValue intPart : ℚ) + (decValue frac : ℚ) / ((10 : ℚ) ^ frac.length))
  | _ => none

/-- `Decimal(s)` on the plain decimal strings FIX carries; malformed input
raises (`none`). -/
def pyDecimal? (s : Str) : Option ℚ :=
  match s with
  | '-' :: rest => (decFrac? rest).map (fun q => -q)
  | '+' :: rest => decFrac? rest
  | _ => decFrac? s

/-- `datetime.strptime(ts, "%Y%m%d-%H:%M:%S")` with an optional `.%f`
fraction, as tried by `parse_execution_report` (fix_processor.py:161-164). -/
def parseFixTs? (s : Str) : Option PyDateTime :=
  match s with
  | y1 :: y2 :: y3 :: y4 :: mo1 :: mo2 :: d1 :: d2 :: '-' ::
      h1 :: h2 :: ':' :: n1 :: n2 :: ':' :: s1 :: s2 :: rest =>
    match fixedDigits? 4 [y1, y2, y3, y4], fixedDigits? 2 [mo1, mo2], fixedDigits? 2 [d1, d2],
        fixedDigits? 2 [h1, h2], fixedDigits? 2 [n1, n2], fixedDigits? 2 [s1, s2] with
    | some y, some mo, some d, some hh, some nn, some ss =>
      if 1 ≤ mo ∧ mo ≤ 12 ∧ 1 ≤ d ∧ d ≤ daysInMonth y mo ∧ hh ≤ 23 ∧ nn ≤ 59 ∧ ss ≤ 59 then
        let base : PyDateTime := ⟨⟨y, mo, d⟩, ((hh * 60 + nn) * 60 + ss) * 1000000⟩
        match rest with
        | [] => some base
        | '.' :: frac =>
          if !frac.isEmpty && frac.all Char.isDigit && decide (frac.length ≤ 6) then
            some { base with micro := base.micro + decValue frac * 10 ^ (6 - frac.length) }
          else none
        | _ => none
      else none
    | _, _, _, _, _, _ => none
  | _ => none

/-- `int(fix_fields.get(tag, 0))`. -/
def intFieldD (fields : List (Int × Str)) (tag : Int) : Except AdapterError Int :=
  match dictLookup fields tag with
  | none => .ok 0
  | some s =>
    match pyInt? s with
    | some n => .ok n
    | none => .error (.pyValueError "invalid literal for int".data)

/-- `int(fix_fields.get(tag, 0)) if tag in fix_fields else None`. -/
def optIntField (fields : List (Int × Str)) (tag : Int) : Except AdapterError (Option Int) :=
  match dictLookup fields tag with
  | none => .ok none
  | some s =>
    match pyInt? s with
    | some n => .ok (some n)
    | none => .error (.pyValueError "invalid literal for int".data)

/-- `Decimal(str(fix_fields[tag])) if tag in fix_fields else None`. -/
def optDecField (fields : List (Int × Str)) (tag : Int) : Except AdapterError (Option ℚ) :=
  match dictLookup fields tag with
  | none => .ok none
  | some s =>
    match pyDecimal? s with
    | some q => .ok (some q)
    | none => .error (.pyValueError "invalid Decimal operation".data)

/-- The body of `FixMessageProcessor.parse_execution_report`
(fix_processor.py:132-194): extract the fields (tags 37, 17, 150, 39, 54,
55, 38, 14, 151, 32, 6, 31, 60, 41, 19, 58, 1), then construct the
internal `ExecutionReport`.  The construction passes the keyword arguments
`orig_client_order_id` and `account`, which the dataclass does not
declare, so the call itself raises `TypeError` whenever it is reached. -/
def FixMessageProcessor.parseExecReportInner (fields : List (Int × Str)) :
    Except AdapterError ExecutionReport :=
  match intFieldD fields 38 with
  | .error e => .error e
  | .ok order_qty =>
    match intFieldD fields 14 with
    | .error e => .error e
    | .ok cum_qty =>
      match intFieldD fields 151 with
      | .error e => .error e
      | .ok leaves_qty =>
        match optIntField fields 32 with
        | .error e => .error e
        | .ok last_qty =>
          match optDecField fields 6 with
          | .error e => .error e
          | .ok avg_px =>
            match optDecField fields 31 with
            | .error e => .error e
            | .ok last_px =>
              if dataclassCallAccepted executionReportFieldNames
                  parseExecutionReportCallKwargs then
                .ok
                  { order_id := pyGet fields 37 []
                    exec_id := pyGet fields 17 []
                    exec_type := pyGet fields 150 []
                    order_status := pyGet fields 39 []
                    side := pyGet fields 54 []
                    symbol := pyGet fields 55 []
                    order_qty := order_qty
                    cum_qty := cum_qty
                    leaves_qty := leaves_qty
                    last_qty := last_qty
                    avg_px := avg_px
                    last_px := last_px
                    transact_time := (dictLookup fields 60).bind parseFixTs?
                    exec_ref_id := dictLookup fields 19
                    text := dictLookup fields 58 }
              else
                .error (.pyValueError
                  "__init__() got an unexpected keyword argument orig_client_order_id".data)

/-- `FixMessageProcessor.parse_execution_report` (fix_processor.py:132): the
`except Exception` re-raises every failure as `MessageParsingError`. -/
def FixMessageProcessor.parse_execution_report (fields : List (Int × Str)) :
    Except AdapterError ExecutionReport :=
  match FixMessageProcessor.parseExecReportInner fields with
  | .ok r => .ok r
  | .error e => .error (.messageParsing ("Failed to parse execution report: ".data ++ errMsg e))

/-! ### Operation sequences over a ProcessedOrder, and concrete fixtures -/

/-- The two mutating operations the order model exposes
(src/src/models/order.py:155,160). -/
inductive OrderOp
  | fill (fill_quantity : Int) (fill_price : ℚ)
  | setStatus (s : OrderStatus)
deriving DecidableEq

/-- Apply one operation at wall-clock `now`. -/
def applyOrderOp (now : Int) (p : ProcessedOrder) : OrderOp → ProcessedOrder
  | .fill q px => p.add_fill q px now
  | .setStatus s => p.update_status s now

/-- Apply a sequence of operations in order. -/
def applyOrderOps (now : Int) (p : ProcessedOrder) (ops : List OrderOp) : ProcessedOrder :=
  ops.foldl (applyOrderOp now) p

/-- Every fill in the sequence is nonnegative and no larger than the
remaining quantity at the moment it is applied. -/
def boundedFills (now : Int) (p : ProcessedOrder) : List OrderOp → Bool
  | [] => true
  | op :: rest =>
    (match op with
     | .fill q _ => decide (0 ≤ q) && decide (q ≤ p.remaining_quantity)
     | .setStatus _ => true) && boundedFills now (applyOrderOp now p op) rest

/-- A concrete processed order used by the witnesses. -/
def sampleProcessedOrder : ProcessedOrder :=
  ProcessedOrder.postInit
    { order_id := "T1".data, client_order_id := "T1".data, symbol := "IBM".data,
      side := .buy, quantity := 10, order_type := .limit, time_in_force := .day,
      account := "A1".data, price := some 10 }

/-- A one-lot order, for exercising over-fills. -/
def unitQuantityOrder : ProcessedOrder :=
  ProcessedOrder.postInit
    { order_id := "U1".data, client_order_id := "U1".data, symbol := "IBM".data,
      side := .buy, quantity := 1, order_type := .limit, time_in_force := .day,
      account := "A1".data, price := some 10 }

/-- Risk limits of the spec's burst test: three orders per second. -/
def burstLimits : RiskLimits := { max_orders_per_second := 3 }

/-- Fresh risk state on 2026-10-12. -/
def freshRiskState : RiskState := { last_reset_date := ⟨2026, 10, 12⟩ }

/-- One submission of `sampleProcessedOrder` through the full risk check at
time `now` (microseconds). -/
def burstSubmit (now : Int) (st : RiskState) : Except AdapterError RiskState :=
  RiskProcessor.check_order burstLimits ⟨2026, 10, 12⟩ now st sampleProcessedOrder

/-- The `account` field of a successful pipeline result. -/
def resultAccount (r : Except AdapterError (ProcessedOrder × RiskState)) : Option Str :=
  match r with
  | .ok (p, _) => some p.account
  | .error _ => none

/-- A valid order request that leaves `account` unset. -/
def requestWithoutAccount : OrderRequest :=
  { order_id := "T1".data, symbol := "IBM".data, side := "BUY".data, quantity := 10,
    price := some 25, order_type := "LIMIT".data, time_in_force := "DAY".data }

section DigitLemmas

theorem digitsLoop_acc (fuel : Nat) : ∀ n acc, digitsLoop fuel n acc = digitsLoop fuel n [] ++ acc := by
  induction fuel with
  | zero => intro n acc; simp [digitsLoop]
  | succ fuel ih =>
    intro n acc
    simp only [digitsLoop]
    split
    · simp
    · rw [ih (n / 10) (Nat.digitChar (n % 10) :: acc), ih (n / 10) [Nat.digitChar (n % 10)]]
      simp

theorem charToDigit_digitChar (d : Nat) (h : d < 10) : charToDigit (Nat.digitChar d) = d := by
  interval_cases d <;> rfl

theorem isDigit_digitChar (d : Nat) (h : d < 10) : (Nat.digitChar d).isDigit = true := by
  interval_cases d <;> rfl

theorem decValue_append_last (a : Str) (c : Char) :
    decValue (a ++ [c]) = 10 * decValue a + charToDigit c := by
  simp [decValue, List.foldl_append]

theorem decValue_digitsLoop (fuel : Nat) : ∀ n, n < fuel → decValue (digitsLoop fuel n []) = n := by
  induction fuel with
  | zero => intro n h; omega
  | succ fuel ih =>
    intro n h
    simp only [digitsLoop]
    split
    · next hlt =>
      show decValue [Nat.digitChar n] = n
      simp [decValue, charToDigit_digitChar n hlt]
    · next hge =>
      rw [digitsLoop_acc, decValue_append_last, ih (n / 10) (by omega),
        charToDigit_digitChar (n % 10) (by omega)]
      omega

theorem decValue_natToDigits (n : Nat) : decValue (natToDigits n) = n :=
  decValue_digitsLoop (n + 1) n (by omega)

theorem digitsLoop_all_digit (fuel : Nat) :
    ∀ n, n < fuel → ∀ c ∈ digitsLoop fuel n [], c.isDigit = true := by
  induction fuel with
  | zero => intro n h; omega
  | succ fuel ih =>
    intro n h c
    simp only [digitsLoop]
    split
    · next hlt =>
      intro hc
      simp only [List.mem_singleton] at hc
      subst hc
      exact isDigit_digitChar n hlt
    · next hge =>
      rw [digitsLoop_acc]
      intro hc
      rcases List.mem_append.mp hc with h1 | h1
      · exact ih (n / 10) (by omega) c h1
      · simp only [List.mem_singleton] at h1
        subst h1
        exact isDigit_digitChar (n % 10) (by omega)

theorem natToDigits_all_digit (n : Nat) : ∀ c ∈ natToDigits n, c.isDigit = true :=
  digitsLoop_all_digit (n + 1) n (by omega)

theorem digitsLoop_ne_nil (fuel n : Nat) (h : n < fuel) : digitsLoop fuel n [] ≠ [] := by
  cases fuel with
  | zero => omega
  | succ fuel =>
    simp only [digitsLoop]
    split
    · simp
    · rw [digitsLoop_acc]; simp

theorem natToDigits_ne_nil (n : Nat) : natToDigits n ≠ [] :=
  digitsLoop_ne_nil (n + 1) n (by omega)

theorem digitsLoop_length_le (k : Nat) :
    ∀ fuel n, n < fuel → n < 10 ^ k → 1 ≤ k → (digitsLoop fuel n []).length ≤ k := by
  induction k with
  | zero => intro fuel n _ _ h; omega
  | succ k ih =>
    intro fuel n hf hn _
    cases fuel with
    | zero => omega
    | succ fuel =>
      simp only [digitsLoop]
      split
      · simp
      · next hge =>
        rw [digitsLoop_acc]
        have hk : 1 ≤ k := by
          by_contra hk0
          have : k = 0 := by omega
          subst this
          simp [pow_succ] at hn
          omega
        have hdiv : n / 10 < 10 ^ k := by
          have : n < 10 ^ k * 10 := by
            calc n < 10 ^ (k + 1) := hn
            _ = 10 ^ k * 10 := by ring
          omega
        have := ih fuel (n / 10) (by omega) hdiv hk
        simp only [List.length_append, List.length_singleton]
        omega

theorem natToDigits_length_le_three (n : Nat) (h : n < 1000) : (natToDigits n).length ≤ 3 := by
  have : n < 10 ^ 3 := by norm_num; omega
  exact digitsLoop_length_le 3 (n + 1) n (by omega) this (by omega)

theorem pad3_length (n : Nat) (h : n < 1000) : (pad3 n).length = 3 := by
  have := natToDigits_length_le_three n h
  simp only [pad3, List.length_append, List.length_replicate]
  omega

theorem pad3_all_digit (n : Nat) : ∀ c ∈ pad3 n, c.isDigit = true := by
  intro c hc
  rcases List.mem_append.mp hc with h1 | h1
  · rw [List.eq_of_mem_replicate h1]; rfl
  · exact natToDigits_all_digit n c h1

theorem decValue_replicate_zero (k : Nat) (s : Str) :
    decValue (List.replicate k '0' ++ s) = decValue s := by
  induction k with
  | zero => simp
  | succ k ih =>
    simp only [List.replicate_succ, List.cons_append]
    show decValue (List.replicate k '0' ++ s) = decValue s
    exact ih

theorem decValue_pad3 (n : Nat) : decValue (pad3 n) = n := by
  rw [pad3, decValue_replicate_zero, decValue_natToDigits]

theorem ne_of_isDigit {c : Char} (h : c.isDigit = true) : c ≠ '=' ∧ c ≠ soh ∧ c ≠ '-' ∧ c ≠ '+' := by
  refine ⟨?_, ?_, ?_, ?_⟩ <;> (intro he; subst he; exact absurd h (by decide))

end DigitLemmas

section SplitLemmas

theorem splitOnChar_ne_nil (c : Char) (l : Str) : splitOnChar c l ≠ [] := by
  induction l with
  | nil => simp [splitOnChar]
  | cons x xs ih =>
    simp only [splitOnChar]
    split
    · simp
    · split
      · simp
      · simp

theorem splitOnChar_of_all_ne (c : Char) (l : Str) (h : ∀ x ∈ l, x ≠ c) :
    splitOnChar c l = [l] := by
  induction l with
  | nil => rfl
  | cons x xs ih =>
    simp only [splitOnChar]
    rw [if_neg (h x (by simp)), ih (fun y hy => h y (by simp [hy]))]

theorem splitOnChar_append_cons (c : Char) (a b : Str) (h : ∀ x ∈ a, x ≠ c) :
    splitOnChar c (a ++ c :: b) = a :: splitOnChar c b := by
  induction a with
  | nil => simp [splitOnChar]
  | cons x xs ih =>
    simp only [List.cons_append, splitOnChar]
    rw [if_neg (h x (by simp))]
    simp only [List.append_eq]
    rw [ih (fun y hy => h y (by simp [hy]))]

theorem splitOnChar_joinSoh (parts : List Str) (rest : Str) (hne : parts ≠ [])
    (h : ∀ p ∈ parts, ∀ x ∈ p, x ≠ soh) :
    splitOnChar soh (joinSoh parts ++ soh :: rest) = parts ++ splitOnChar soh rest := by
  induction parts with
  | nil => exact absurd rfl hne
  | cons p ps ih =>
    cases ps with
    | nil =>
      simp only [joinSoh]
      rw [splitOnChar_append_cons soh p rest (h p (by simp))]
      rfl
    | cons q qs =>
      show splitOnChar soh ((p ++ soh :: joinSoh (q :: qs)) ++ soh :: rest) = _
      rw [List.append_assoc, List.cons_append,
        splitOnChar_append_cons soh p (joinSoh (q :: qs) ++ soh :: rest) (h p (by simp)),
        ih (by simp) (fun r hr => h r (by simp [hr]))]
      rfl

theorem takeWhile_append_stop (p : Char → Bool) (a : Str) (x : Char) (b : Str)
    (ha : ∀ y ∈ a, p y = true) (hx : p x = false) :
    (a ++ x :: b).takeWhile p = a := by
  induction a with
  | nil => simp [List.takeWhile_cons, hx]
  | cons y ys ih =>
    simp only [List.cons_append, List.takeWhile_cons, ha y (by simp)]
    simp [ih (fun z hz => ha z (by simp [hz]))]

theorem dropWhile_append_stop (p : Char → Bool) (a : Str) (x : Char) (b : Str)
    (ha : ∀ y ∈ a, p y = true) (hx : p x = false) :
    (a ++ x :: b).dropWhile p = x :: b := by
  induction a with
  | nil => simp [List.dropWhile_cons, hx]
  | cons y ys ih =>
    simp only [List.cons_append, List.dropWhile_cons, ha y (by simp)]
    exact ih (fun z hz => ha z (by simp [hz]))

end SplitLemmas

section DictLemmas

theorem dictLookup_map_replace (d : List (Int × Str)) (k : Int) (v : Str) (q : Int) :
    dictLookup (d.map (fun p => if p.1 = k then (k, v) else p)) q =
      if q = k then (dictLookup d k).map (fun _ => v) else dictLookup d q := by
  induction d with
  | nil => simp [dictLookup]
  | cons p rest ih =>
    simp only [List.map_cons]
    by_cases hp : p.1 = k
    · by_cases hq : q = k
      · simp [dictLookup, hp, hq]
      · simp [dictLookup, hp, hq, ih]
    · by_cases hq : q = k
      · subst hq
        simp [dictLookup, hp, Ne.symm hp, ih]
      · by_cases hqp : q = p.1
        · simp [dictLookup, hp, hq, hqp, ih]
        · simp [dictLookup, hp, hq, hqp, ih]

theorem dictLookup_append_single (d : List (Int × Str)) (k : Int) (v : Str) (q : Int) :
    dictLookup (d ++ [(k, v)]) q =
      match dictLookup d q with
      | some w => some w
      | none => if q = k then some v else none := by
  induction d with
  | nil => simp [dictLookup]
  | cons p rest ih =>
    simp only [List.cons_append, dictLookup]
    by_cases hq : q = p.1
    · simp [hq]
    · simp [hq, ih]

theorem any_key_eq_isSome (d : List (Int × Str)) (k : Int) :
    d.any (fun p => p.1 = k) = (dictLookup d k).isSome := by
  induction d with
  | nil => simp [dictLookup]
  | cons p rest ih =>
    simp only [List.any_cons, dictLookup]
    by_cases hp : p.1 = k
    · simp [hp]
    · simp [hp, ih, Ne.symm hp]

theorem dictLookup_dictInsert (d : List (Int × Str)) (k : Int) (v : Str) (q : Int) :
    dictLookup (dictInsert d k v) q = if q = k then some v else dictLookup d q := by
  rw [dictInsert]
  by_cases hany : d.any (fun p => p.1 = k) = true
  · rw [if_pos hany, dictLookup_map_replace]
    rw [any_key_eq_isSome] at hany
    by_cases hq : q = k
    · simp only [if_pos hq]
      cases hd : dictLookup d k with
      | none => rw [hd] at hany; simp at hany
      | some w => simp
    · simp [hq]
  · rw [if_neg hany, dictLookup_append_single]
    rw [any_key_eq_isSome] at hany
    by_cases hq : q = k
    · subst hq
      cases hd : dictLookup d q with
      | none => simp
      | some w => rw [hd] at hany; simp at hany
    · cases hd : dictLookup d q with
      | none => simp [hq]
      | some w => simp [hq]

theorem dictLookup_foldl (ps : List (Int × Str)) :
    ∀ d k, dictLookup (ps.foldl (fun d p => dictInsert d p.1 p.2) d) k =
      match lastLookup ps k with
      | some v => some v
      | none => dictLookup d k := by
  induction ps with
  | nil => intro d k; simp [lastLookup]
  | cons p rest ih =>
    intro d k
    simp only [List.foldl_cons, lastLookup]
    rw [ih]
    cases hrest : lastLookup rest k with
    | some v => simp
    | none =>
      simp only [dictLookup_dictInsert]
      by_cases hk : k = p.1
      · simp [hk]
      · rw [if_neg hk, if_neg (fun h : p.1 = k => hk h.symm)]

theorem lastLookup_append (a b : List (Int × Str)) (k : Int) :
    lastLookup (a ++ b) k =
      match lastLookup b k with
      | some v => some v
      | none => lastLookup a k := by
  induction a with
  | nil =>
    cases h : lastLookup b k <;> simp [lastLookup, h]
  | cons p rest ih =>
    simp only [List.cons_append, lastLookup, List.append_eq]
    rw [ih]
    cases h1 : lastLookup b k <;> cases h2 : lastLookup rest k <;> simp [h1, h2]

theorem lastLookup_of_not_mem (ps : List (Int × Str)) (k : Int)
    (h : k ∉ ps.map Prod.fst) : lastLookup ps k = none := by
  induction ps with
  | nil => rfl
  | cons p rest ih =>
    simp only [List.map_cons, List.mem_cons] at h
    push_neg at h
    simp only [lastLookup, ih h.2]
    rw [if_neg (fun he : p.1 = k => h.1 he.symm)]

theorem dictLookup_of_not_mem (ps : List (Int × Str)) (k : Int)
    (h : k ∉ ps.map Prod.fst) : dictLookup ps k = none := by
  induction ps with
  | nil => rfl
  | cons p rest ih =>
    simp only [List.map_cons, List.mem_cons] at h
    push_neg at h
    simp only [dictLookup, if_neg h.1]
    exact ih h.2

theorem lastLookup_eq_dictLookup (ps : List (Int × Str)) (k : Int)
    (h : (ps.map Prod.fst).Nodup) : lastLookup ps k = dictLookup ps k := by
  induction ps with
  | nil => rfl
  | cons p rest ih =>
    simp only [List.map_cons, List.nodup_cons] at h
    by_cases hk : k = p.1
    · subst hk
      have hrest : lastLookup rest p.1 = none :=
        lastLookup_of_not_mem rest p.1 h.1
      simp [lastLookup, dictLookup, hrest]
    · have hp : ¬(p.1 = k) := fun he => hk he.symm
      simp only [lastLookup, dictLookup, if_neg hk, if_neg hp, ih h.2]
      cases dictLookup rest k <;> simp

end DictLemmas

section FieldRoundtrip

theorem decNat?_natToDigits (n : Nat) : decNat? (natToDigits n) = some n := by
  cases h : natToDigits n with
  | nil => exact absurd h (natToDigits_ne_nil n)
  | cons c cs =>
    have hall : (c :: cs).all Char.isDigit = true := by
      rw [List.all_eq_true]
      intro x hx
      exact natToDigits_all_digit n x (h ▸ hx)
    have hv : decValue (c :: cs) = n := by
      rw [← h]; exact decValue_natToDigits n
    simp [decNat?, hall, hv]

theorem pyInt?_intToDigits (t : Int) : pyInt? (intToDigits t) = some t := by
  by_cases ht : t < 0
  · rw [intToDigits, if_pos ht]
    have h1 : pyInt? ('-' :: natToDigits t.natAbs) =
        (decNat? (natToDigits t.natAbs)).map (fun n => -(n : Int)) := rfl
    rw [h1, decNat?_natToDigits]
    exact congrArg some (by omega : -((t.natAbs : Int)) = t)
  · rw [intToDigits, if_neg ht]
    cases h : natToDigits t.natAbs with
    | nil => exact absurd h (natToDigits_ne_nil t.natAbs)
    | cons c cs =>
      have hc : c.isDigit = true := natToDigits_all_digit t.natAbs c (h ▸ List.mem_cons_self c cs)
      obtain ⟨-, -, hminus, hplus⟩ := ne_of_isDigit hc
      have h0 : pyInt? (c :: cs) =
          if c = '-' then (decNat? cs).map (fun n => -(n : Int))
          else if c = '+' then (decNat? cs).map (fun n => (n : Int))
          else (decNat? (c :: cs)).map (fun n => (n : Int)) := rfl
      rw [h0, if_neg hminus, if_neg hplus, ← h, decNat?_natToDigits]
      exact congrArg some (by omega : ((t.natAbs : Int)) = t)

theorem intToDigits_no_eq_no_soh (t : Int) : ∀ x ∈ intToDigits t, x ≠ '=' ∧ x ≠ soh := by
  intro x hx
  rw [intToDigits] at hx
  by_cases ht : t < 0
  · rw [if_pos ht] at hx
    rcases List.mem_cons.mp hx with h1 | h1
    · subst h1; exact ⟨by decide, by decide⟩
    · obtain ⟨he, hs, -, -⟩ := ne_of_isDigit (natToDigits_all_digit t.natAbs x h1)
      exact ⟨he, hs⟩
  · rw [if_neg ht] at hx
    obtain ⟨he, hs, -, -⟩ := ne_of_isDigit (natToDigits_all_digit t.natAbs x hx)
    exact ⟨he, hs⟩

theorem contains_eq_of_append (a b : Str) : (a ++ '=' :: b).contains '=' = true := by
  induction a with
  | nil => simp [List.contains]
  | cons y ys ih => simp [List.contains] at ih ⊢

theorem tagPart_append (a b : Str) (ha : ∀ y ∈ a, y ≠ '=') :
    tagPart (a ++ '=' :: b) = a := by
  unfold tagPart
  exact takeWhile_append_stop _ a '=' b (fun y hy => by simp [ha y hy]) (by simp)

theorem valuePart_append (a b : Str) (ha : ∀ y ∈ a, y ≠ '=') :
    valuePart (a ++ '=' :: b) = b := by
  unfold valuePart
  rw [dropWhile_append_stop _ a '=' b (fun y hy => by simp [ha y hy]) (by simp)]
  rfl

theorem partToPair?_renderField (t : Int) (v : Str) :
    partToPair? (renderField (t, v)) = some (t, v) := by
  have hne : ∀ y ∈ intToDigits t, y ≠ '=' := fun y hy => (intToDigits_no_eq_no_soh t y hy).1
  rw [partToPair?, renderField]
  simp only
  rw [if_pos (contains_eq_of_append _ _), tagPart_append _ _ hne, valuePart_append _ _ hne,
    pyInt?_intToDigits]
  rfl

theorem renderField_sohFree (t : Int) (v : Str) (hv : SohFree v) :
    SohFree (renderField (t, v)) := by
  intro x hx
  rw [renderField] at hx
  simp only at hx
  rcases List.mem_append.mp hx with h1 | h1
  · exact (intToDigits_no_eq_no_soh t x h1).2
  · rcases List.mem_cons.mp h1 with h2 | h2
    · subst h2; decide
    · exact hv x h2

theorem natToDigits_sohFree (n : Nat) : SohFree (natToDigits n) := by
  intro x hx
  exact (ne_of_isDigit (natToDigits_all_digit n x hx)).2.1

theorem pad3_sohFree (n : Nat) : SohFree (pad3 n) := by
  intro x hx
  exact (ne_of_isDigit (pad3_all_digit n x hx)).2.1

end FieldRoundtrip

theorem calculate_checksum_lt (m : Str) : calculate_checksum m < 1000 := by
  have : calculate_checksum m < 256 := Nat.mod_lt _ (by norm_num)
  omega

theorem joinSoh_cons (p : Str) (ps : List Str) : ∃ r, joinSoh (p :: ps) = p ++ r := by
  cases ps with
  | nil => exact ⟨[], by simp [joinSoh]⟩
  | cons q qs => exact ⟨soh :: joinSoh (q :: qs), rfl⟩

/-- C3: every message built by `build_fix_message` starts with `8=FIX.4.4`,
carries in tag 9 the byte count of the message from tag 35 up to but not
including the checksum field (`body ++ [soh]`), and ends with a tag-10
value that is the sum of all preceding bytes modulo 256 rendered as
exactly three decimal digits. -/
theorem build_fix_message_framing (fields : List (Int × Str)) (msgType : Str) :
    ∃ body : Str,
      (∃ rest, body = "35=".data ++ rest) ∧
      (let pre := "8=FIX.4.4".data ++ soh ::
          "9=".data ++ natToDigits ((body ++ [soh]).length) ++ soh :: body ++ [soh]
       let cks := pad3 (calculate_checksum pre)
       build_fix_message fields msgType = pre ++ "10=".data ++ cks ++ [soh] ∧
         cks.length = 3 ∧ (∀ c ∈ cks, c.isDigit = true) ∧
         decValue cks = calculate_checksum pre ∧
         decValue (natToDigits ((body ++ [soh]).length)) = (body ++ [soh]).length) := by
  refine ⟨joinSoh (bodyParts fields msgType), ?_, ?_, ?_, ?_, ?_, ?_⟩
  · obtain ⟨r, hr⟩ := joinSoh_cons ("35=".data ++ msgType)
      ((fields.filter (fun p => ¬(p.1 = 8 ∨ p.1 = 9 ∨ p.1 = 10))).map renderField)
    exact ⟨msgType ++ r, by rw [bodyParts, hr, List.append_assoc]⟩
  · simp only [build_fix_message, List.length_append, List.length_cons, List.length_nil]
  · exact pad3_length _ (calculate_checksum_lt _)
  · exact pad3_all_digit _
  · exact decValue_pad3 _
  · exact decValue_natToDigits _

section ParseBuild

theorem partToPair?_append (a : Str) (t : Int) (b : Str) (ha : ∀ y ∈ a, y ≠ '=')
    (hp : pyInt? a = some t) : partToPair? (a ++ '=' :: b) = some (t, b) := by
  rw [partToPair?, if_pos (contains_eq_of_append _ _), tagPart_append _ _ ha,
    valuePart_append _ _ ha, hp]
  rfl

theorem filterMap_renderField (l : List (Int × Str)) :
    (l.map renderField).filterMap partToPair? = l := by
  induction l with
  | nil => rfl
  | cons p rest ih =>
    have hr : partToPair? (renderField p) = some p := by
      cases p with
      | mk t v => exact partToPair?_renderField t v
    simp [List.filterMap_cons, hr, ih]

theorem build_eq_parts (fields : List (Int × Str)) (mt : Str) :
    build_fix_message fields mt =
      fixPreChecksum fields mt ++ "10=".data
        ++ pad3 (calculate_checksum (fixPreChecksum fields mt)) ++ [soh] := rfl

theorem bodyParts_sohFree (fields : List (Int × Str)) (mt : Str)
    (hvals : ∀ p ∈ fields, SohFree p.2) (hmt : SohFree mt) :
    ∀ p ∈ bodyParts fields mt, ∀ x ∈ p, x ≠ soh := by
  intro p hp
  rw [bodyParts] at hp
  rcases List.mem_cons.mp hp with h1 | h1
  · subst h1
    intro x hx
    rcases List.mem_append.mp hx with h2 | h2
    · exact (by decide : ∀ y ∈ "35=".data, y ≠ soh) x h2
    · exact hmt x h2
  · obtain ⟨q, hq, rfl⟩ := List.mem_map.mp h1
    have hq2 : q ∈ fields := (List.mem_filter.mp hq).1
    cases q with
    | mk t v => exact renderField_sohFree t v (hvals _ hq2)

theorem split_build (fields : List (Int × Str)) (mt : Str)
    (hvals : ∀ p ∈ fields, SohFree p.2) (hmt : SohFree mt) :
    splitOnChar soh (build_fix_message fields mt) =
      "8=FIX.4.4".data ::
        ("9=".data ++ natToDigits ((fixBody fields mt).length + 1)) ::
          bodyParts fields mt ++
            [("10=".data ++ pad3 (calculate_checksum (fixPreChecksum fields mt))), []] := by
  have hshape : build_fix_message fields mt =
      "8=FIX.4.4".data ++ soh ::
        (("9=".data ++ natToDigits ((fixBody fields mt).length + 1)) ++ soh ::
          (joinSoh (bodyParts fields mt) ++ soh ::
            (("10=".data ++ pad3 (calculate_checksum (fixPreChecksum fields mt))) ++ soh :: []))) := by
    rw [build_eq_parts]
    simp [fixPreChecksum, fixBody, List.append_assoc]
  have h9free : ∀ x ∈ "9=".data ++ natToDigits ((fixBody fields mt).length + 1), x ≠ soh := by
    intro x hx
    rcases List.mem_append.mp hx with h1 | h1
    · exact (by decide : ∀ y ∈ "9=".data, y ≠ soh) x h1
    · exact natToDigits_sohFree _ x h1
  have h10free : ∀ x ∈ "10=".data ++ pad3 (calculate_checksum (fixPreChecksum fields mt)),
      x ≠ soh := by
    intro x hx
    rcases List.mem_append.mp hx with h1 | h1
    · exact (by decide : ∀ y ∈ "10=".data, y ≠ soh) x h1
    · exact pad3_sohFree _ x h1
  rw [hshape]
  rw [splitOnChar_append_cons soh "8=FIX.4.4".data _ (by decide)]
  rw [splitOnChar_append_cons soh _ _ h9free]
  rw [show joinSoh (bodyParts fields mt) = fixBody fields mt from rfl] at *
  rw [show fixBody fields mt = joinSoh (bodyParts fields mt) from rfl]
  rw [splitOnChar_joinSoh (bodyParts fields mt) _ (by rw [bodyParts]; exact List.cons_ne_nil _ _)
    (bodyParts_sohFree fields mt hvals hmt)]
  rw [splitOnChar_append_cons soh _ _ h10free]
  rfl

theorem partToPair?_p8 :
    partToPair? ['8', '=', 'F', 'I', 'X', '.', '4', '.', '4'] =
      some (8, ['F', 'I', 'X', '.', '4', '.', '4']) := by decide

theorem partToPair?_p9 (b : Str) : partToPair? ('9' :: '=' :: b) = some (9, b) :=
  partToPair?_append ['9'] 9 b (by decide) (by decide)

theorem partToPair?_p35 (b : Str) : partToPair? ('3' :: '5' :: '=' :: b) = some (35, b) :=
  partToPair?_append ['3', '5'] 35 b (by decide) (by decide)

theorem partToPair?_p10 (b : Str) : partToPair? ('1' :: '0' :: '=' :: b) = some (10, b) :=
  partToPair?_append ['1', '0'] 10 b (by decide) (by decide)

theorem parse_build_pairs (fields : List (Int × Str)) (mt : Str)
    (hkeys : ∀ p ∈ fields, ¬(p.1 = 8 ∨ p.1 = 9 ∨ p.1 = 10))
    (hvals : ∀ p ∈ fields, SohFree p.2) (hmt : SohFree mt) :
    (splitOnChar soh (build_fix_message fields mt)).filterMap partToPair? =
      (8, "FIX.4.4".data) ::
        (9, natToDigits ((fixBody fields mt).length + 1)) ::
          (35, mt) :: fields ++
            [(10, pad3 (calculate_checksum (fixPreChecksum fields mt)))] := by
  rw [split_build fields mt hvals hmt]
  have hfilter : fields.filter (fun p => ¬(p.1 = 8 ∨ p.1 = 9 ∨ p.1 = 10)) = fields := by
    rw [List.filter_eq_self]
    intro p hp
    simpa using hkeys p hp
  rw [bodyParts]
  simp only [List.filterMap_cons, partToPair?_p8, partToPair?_p9, partToPair?_p35,
    partToPair?_p10, List.filterMap_append, List.filterMap_cons,
    filterMap_renderField, hfilter, (show partToPair? [] = none from rfl),
    List.filterMap_nil, List.cons_append, List.append_assoc, List.nil_append]

/-- C4 (amended): the round trip holds up to the four entries the encoder
itself adds.  For every field dictionary whose tags avoid 8, 9, 10 and 35
and whose values (and message type) are SOH-free, parsing the encoded wire
string recovers exactly the original fields at every other tag, and maps
tag 8 to `FIX.4.4`, tag 35 to the message type, tag 9 to the body length
and tag 10 to the checksum; `parse_fix_message (build_fix_message fields
mt)` therefore differs from `fields` exactly on those four header/trailer
tags, and is not the identity round trip the claim states. -/
theorem parse_build_fix_lookup (fields : List (Int × Str)) (mt : Str)
    (hnd : (fields.map Prod.fst).Nodup)
    (hkeys : ∀ p ∈ fields, ¬(p.1 = 8 ∨ p.1 = 9 ∨ p.1 = 10 ∨ p.1 = 35))
    (hvals : ∀ p ∈ fields, SohFree p.2) (hmt : SohFree mt) :
    ∀ t, dictLookup (parse_fix_message (build_fix_message fields mt)) t =
      if t = 8 then some "FIX.4.4".data
      else if t = 9 then some (natToDigits ((fixBody fields mt).length + 1))
      else if t = 10 then some (pad3 (calculate_checksum (fixPreChecksum fields mt)))
      else if t = 35 then some mt
      else dictLookup fields t := by
  intro t
  have hkeys' : ∀ p ∈ fields, ¬(p.1 = 8 ∨ p.1 = 9 ∨ p.1 = 10) := by
    intro p hp h
    exact hkeys p hp (by tauto)
  have hnotmem : ∀ u : Int, (∀ p ∈ fields, p.1 ≠ u) → u ∉ fields.map Prod.fst := by
    intro u hu hm
    obtain ⟨p, hp, he⟩ := List.mem_map.mp hm
    exact hu p hp he
  rw [show parse_fix_message (build_fix_message fields mt) =
      ((splitOnChar soh (build_fix_message fields mt)).filterMap partToPair?).foldl
        (fun d p => dictInsert d p.1 p.2) [] from rfl,
    parse_build_pairs fields mt hkeys' hvals hmt, dictLookup_foldl]
  by_cases h8 : t = 8
  · subst h8
    have hnm : (8 : Int) ∉ fields.map Prod.fst :=
      hnotmem 8 (fun p hp he => hkeys p hp (Or.inl he))
    simp [lastLookup, lastLookup_append, lastLookup_of_not_mem fields 8 hnm, dictLookup]
  · by_cases h9 : t = 9
    · subst h9
      have hnm : (9 : Int) ∉ fields.map Prod.fst :=
        hnotmem 9 (fun p hp he => hkeys p hp (Or.inr (Or.inl he)))
      simp [lastLookup, lastLookup_append, lastLookup_of_not_mem fields 9 hnm, dictLookup, h8]
    · by_cases h10 : t = 10
      · subst h10
        simp [lastLookup, lastLookup_append, dictLookup, h8, h9]
      · by_cases h35 : t = 35
        · subst h35
          have hnm : (35 : Int) ∉ fields.map Prod.fst :=
            hnotmem 35 (fun p hp he => hkeys p hp (Or.inr (Or.inr (Or.inr he))))
          simp [lastLookup, lastLookup_append, lastLookup_of_not_mem fields 35 hnm,
            dictLookup, h8, h9, h10]
        · have h10' : ¬((10 : Int) = t) := fun h => h10 h.symm
          have h35' : ¬((35 : Int) = t) := fun h => h35 h.symm
          have h9' : ¬((9 : Int) = t) := fun h => h9 h.symm
          have h8' : ¬((8 : Int) = t) := fun h => h8 h.symm
          rw [lastLookup_append]
          simp only [lastLookup]
          rw [lastLookup_eq_dictLookup fields t hnd]
          simp only [if_neg h10', if_neg h35', if_neg h9', if_neg h8',
            if_neg h8, if_neg h9, if_neg h10, if_neg h35]
          cases hd : dictLookup fields t <;> simp [dictLookup]

/-- C4 counterexample: on the empty field dictionary, `parse ∘ build` is not
the identity — the parsed record contains the header and checksum entries
the encoder added (tags 8, 9, 35, 10), so it differs from the input dict. -/
theorem parse_build_not_identity :
    parse_fix_message (build_fix_message [] "0".data) ≠ [] ∧
      dictLookup (parse_fix_message (build_fix_message [] "0".data)) 8 =
        some "FIX.4.4".data ∧
      dictLookup ([] : List (Int × Str)) 8 = none := by
  refine ⟨by decide, by decide, rfl⟩

/-- Witness for the amended C4 round trip at a concrete NewOrderSingle-like
dictionary. -/
theorem parse_build_fix_lookup_witness :
    (([(11, "T1".data), (55, "SPXW".data)] : List (Int × Str)).map Prod.fst).Nodup ∧
      (∀ p ∈ ([(11, "T1".data), (55, "SPXW".data)] : List (Int × Str)),
        ¬(p.1 = 8 ∨ p.1 = 9 ∨ p.1 = 10 ∨ p.1 = 35)) ∧
      (∀ p ∈ ([(11, "T1".data), (55, "SPXW".data)] : List (Int × Str)), SohFree p.2) ∧
      SohFree "D".data ∧
      dictLookup
        (parse_fix_message (build_fix_message [(11, "T1".data), (55, "SPXW".data)] "D".data))
        11 = some "T1".data :=
  ⟨by decide, by decide, by decide, by decide,
    (parse_build_fix_lookup [(11, "T1".data), (55, "SPXW".data)] "D".data
      (by decide) (by decide) (by decide) (by decide) 11).trans (by decide)⟩

end ParseBuild

section ValidateStructure

theorem pad3_explicit (n : Nat) (h : n < 1000) :
    ∃ d1 d2 d3, pad3 n = [d1, d2, d3] ∧
      d1.isDigit = true ∧ d2.isDigit = true ∧ d3.isDigit = true := by
  have hl := pad3_length n h
  have hd := pad3_all_digit n
  rcases hp : pad3 n with _ | ⟨a, _ | ⟨b, _ | ⟨c, _ | _⟩⟩⟩ <;> rw [hp] at hl <;> simp at hl
  rw [hp] at hd
  exact ⟨a, b, c, rfl, hd a (by simp), hd b (by simp), hd c (by simp)⟩

theorem startsWith8_of_build (x : Str) :
    startsWith8eqFIX ("8=FIX.4.4".data ++ x) = true := by
  show List.isPrefixOf ['8', '=', 'F', 'I', 'X']
    ('8' :: '=' :: 'F' :: 'I' :: 'X' :: '.' :: '4' :: '.' :: '4' :: x) = true
  simp [List.isPrefixOf]

theorem endsWithChecksumField_of (pre : Str) (d1 d2 d3 : Char)
    (h1 : d1.isDigit = true) (h2 : d2.isDigit = true) (h3 : d3.isDigit = true) :
    endsWithChecksumField (pre ++ "10=".data ++ [d1, d2, d3] ++ [soh]) = true := by
  have hrev : (pre ++ "10=".data ++ [d1, d2, d3] ++ [soh]).reverse =
      soh :: d3 :: d2 :: d1 :: '=' :: '0' :: '1' :: pre.reverse := by
    simp [List.reverse_append]
  rw [endsWithChecksumField, hrev]
  simp [h1, h2, h3]

theorem matchesRequiredHeader_of (bl : Nat) (x : Str) :
    matchesRequiredHeader ("8=FIX.4.4".data ++ soh :: "9=".data ++ natToDigits bl
      ++ soh :: '3' :: '5' :: '=' :: x) = true := by
  have hshape : "8=FIX.4.4".data ++ soh :: "9=".data ++ natToDigits bl
      ++ soh :: '3' :: '5' :: '=' :: x =
      '8' :: '=' :: 'F' :: 'I' :: 'X' :: '.' :: '4' :: '.' :: '4' :: soh :: '9' :: '=' ::
        (natToDigits bl ++ soh :: '3' :: '5' :: '=' :: x) := by
    simp
  rw [hshape, matchesRequiredHeader]
  have htake : (natToDigits bl ++ soh :: '3' :: '5' :: '=' :: x).takeWhile Char.isDigit =
      natToDigits bl :=
    takeWhile_append_stop _ _ _ _ (fun y hy => natToDigits_all_digit bl y hy) rfl
  have hdrop : (natToDigits bl ++ soh :: '3' :: '5' :: '=' :: x).dropWhile Char.isDigit =
      soh :: '3' :: '5' :: '=' :: x :=
    dropWhile_append_stop _ _ _ _ (fun y hy => natToDigits_all_digit bl y hy) rfl
  simp [htake, hdrop, natToDigits_ne_nil bl]

/-- C5 (amended): inbound parsing performs no value-level rejection.
`parse_fix_message` returns a tag record for any input, and
`validate_fix_message_structure` checks only the syntactic shape (leading
`8=FIX`, header pattern `8=FIX.d.d|9=<digits>|35=`, trailing three-digit
`10=` field): in particular every message produced by `build_fix_message`
passes it, and the check never compares BeginString to `FIX.4.4`
specifically, nor BodyLength or CheckSum to their measured values. -/
theorem validate_structure_accepts_built (fields : List (Int × Str)) (mt : Str) :
    validate_fix_message_structure (build_fix_message fields mt) = true := by
  obtain ⟨r, hr⟩ := joinSoh_cons ("35=".data ++ mt)
    ((fields.filter (fun p => ¬(p.1 = 8 ∨ p.1 = 9 ∨ p.1 = 10))).map renderField)
  have hbody : fixBody fields mt = '3' :: '5' :: '=' :: (mt ++ r) := by
    rw [fixBody, bodyParts, hr]
    simp
  obtain ⟨d1, d2, d3, hpad, h1, h2, h3⟩ :=
    pad3_explicit (calculate_checksum (fixPreChecksum fields mt))
      (calculate_checksum_lt _)
  have hm : build_fix_message fields mt =
      fixPreChecksum fields mt ++ "10=".data ++ [d1, d2, d3] ++ [soh] := by
    rw [build_eq_parts, hpad]
  have hm2 : build_fix_message fields mt =
      "8=FIX.4.4".data ++ soh :: "9=".data
        ++ natToDigits ((fixBody fields mt).length + 1)
        ++ soh :: '3' :: '5' :: '=' ::
          ((mt ++ r) ++ soh :: ("10=".data ++ [d1, d2, d3] ++ [soh])) := by
    rw [hm, fixPreChecksum, hbody]
    simp [List.append_assoc]
  rw [validate_fix_message_structure]
  have he : endsWithChecksumField (build_fix_message fields mt) = true := by
    rw [hm]
    exact endsWithChecksumField_of _ d1 d2 d3 h1 h2 h3
  have hs : startsWith8eqFIX (build_fix_message fields mt) = true := by
    rw [hm2]
    exact startsWith8_of_build _
  have hh : matchesRequiredHeader (build_fix_message fields mt) = true := by
    rw [hm2]
    have := matchesRequiredHeader_of ((fixBody fields mt).length + 1)
      ((mt ++ r) ++ soh :: ("10=".data ++ [d1, d2, d3] ++ [soh]))
    convert this using 2
  have hne : (build_fix_message fields mt).isEmpty = false := by
    rw [hm2]
    rfl
  rw [he, hs, hh, hne]
  rfl

/-- C5 counterexample: a concrete message whose BeginString is `FIX.4.2`
(not `FIX.4.4`), whose BodyLength field (999) disagrees with the measured
body length (5), and whose checksum field (000) disagrees with the computed
checksum, is neither rejected by `parse_fix_message` (it yields a parsed
record) nor by `validate_fix_message_structure` (it returns `true`). -/
theorem parse_accepts_invalid_message :
    parse_fix_message "8=FIX.4.2\x019=999\x0135=0\x0110=000\x01".data ≠ [] ∧
      dictLookup (parse_fix_message "8=FIX.4.2\x019=999\x0135=0\x0110=000\x01".data) 8 =
        some "FIX.4.2".data ∧
      decValue "999".data ≠ ("35=0".data ++ [soh]).length ∧
      pad3 (calculate_checksum "8=FIX.4.2\x019=999\x0135=0\x01".data) ≠ "000".data ∧
      validate_fix_message_structure "8=FIX.4.2\x019=999\x0135=0\x0110=000\x01".data = true := by
  refine ⟨by decide, by decide, by decide, by decide, by decide⟩

end ValidateStructure

section FillInvariant

theorem add_fill_fields (p : ProcessedOrder) (q : Int) (px : ℚ) (now : Int) :
    (p.add_fill q px now).filled_quantity = p.filled_quantity + q ∧
    (p.add_fill q px now).remaining_quantity = p.quantity - (p.filled_quantity + q) ∧
    (p.add_fill q px now).quantity = p.quantity := by
  rw [ProcessedOrder.add_fill]
  split <;> simp [ProcessedOrder.update_status]

theorem update_status_fields (p : ProcessedOrder) (s : OrderStatus) (now : Int) :
    (p.update_status s now).filled_quantity = p.filled_quantity ∧
    (p.update_status s now).remaining_quantity = p.remaining_quantity ∧
    (p.update_status s now).quantity = p.quantity := by
  simp [ProcessedOrder.update_status]

theorem applyOrderOps_sum (now : Int) (ops : List OrderOp) :
    ∀ p : ProcessedOrder, p.filled_quantity + p.remaining_quantity = p.quantity →
      (applyOrderOps now p ops).filled_quantity + (applyOrderOps now p ops).remaining_quantity =
        (applyOrderOps now p ops).quantity := by
  induction ops with
  | nil => intro p h; exact h
  | cons op rest ih =>
    intro p h
    show (applyOrderOps now (applyOrderOp now p op) rest).filled_quantity + _ = _
    apply ih
    cases op with
    | fill q px =>
      obtain ⟨h1, h2, h3⟩ := add_fill_fields p q px now
      simp only [applyOrderOp]
      rw [h1, h2, h3]
      omega
    | setStatus s =>
      obtain ⟨h1, h2, h3⟩ := update_status_fields p s now
      simp only [applyOrderOp]
      rw [h1, h2, h3]
      exact h

theorem applyOrderOps_nonneg (now : Int) (ops : List OrderOp) :
    ∀ p : ProcessedOrder, p.filled_quantity + p.remaining_quantity = p.quantity →
      0 ≤ p.remaining_quantity → boundedFills now p ops = true →
      0 ≤ (applyOrderOps now p ops).remaining_quantity := by
  induction ops with
  | nil => intro p _ h0 _; exact h0
  | cons op rest ih =>
    intro p hsum h0 hb
    show 0 ≤ (applyOrderOps now (applyOrderOp now p op) rest).remaining_quantity
    cases op with
    | fill q px =>
      simp only [boundedFills, Bool.and_eq_true, decide_eq_true_eq] at hb
      obtain ⟨⟨hq0, hqr⟩, hbrest⟩ := hb
      obtain ⟨h1, h2, h3⟩ := add_fill_fields p q px now
      apply ih
      · simp only [applyOrderOp]
        rw [h1, h2, h3]; omega
      · simp only [applyOrderOp]
        rw [h2]; omega
      · exact hbrest
    | setStatus s =>
      simp only [boundedFills, Bool.and_eq_true] at hb
      obtain ⟨h1, h2, h3⟩ := update_status_fields p s now
      apply ih
      · simp only [applyOrderOp]
        rw [h1, h2, h3]; exact hsum
      · simp only [applyOrderOp]
        rw [h2]; exact h0
      · exact hb.2

/-- C2 (amended): for every `ProcessedOrder`, at construction
(`__post_init__`) and after every sequence of `add_fill`/`update_status`
operations, `filled_quantity + remaining_quantity = quantity`;
`filled_quantity` starts at its dataclass default `0` and then
`remaining_quantity = quantity`.  `remaining_quantity ≥ 0` additionally
requires every fill to be nonnegative and at most the remaining quantity
at the time it is applied — `add_fill` itself does not guard over-fills,
so without that condition the claim's `remaining_quantity ≥ 0` fails. -/
theorem processed_order_quantity_invariant (p : ProcessedOrder) (now : Int)
    (ops : List OrderOp) (hfill : p.filled_quantity = 0) :
    ((ProcessedOrder.postInit p).filled_quantity = 0 ∧
      (ProcessedOrder.postInit p).remaining_quantity = (ProcessedOrder.postInit p).quantity) ∧
    ((applyOrderOps now (ProcessedOrder.postInit p) ops).filled_quantity +
        (applyOrderOps now (ProcessedOrder.postInit p) ops).remaining_quantity =
      (applyOrderOps now (ProcessedOrder.postInit p) ops).quantity) ∧
    (boundedFills now (ProcessedOrder.postInit p) ops = true → 0 ≤ p.quantity →
      0 ≤ (applyOrderOps now (ProcessedOrder.postInit p) ops).remaining_quantity) := by
  have hpost : (ProcessedOrder.postInit p).filled_quantity = 0 ∧
      (ProcessedOrder.postInit p).remaining_quantity = (ProcessedOrder.postInit p).quantity ∧
      (ProcessedOrder.postInit p).quantity = p.quantity := by
    simp [ProcessedOrder.postInit, hfill]
  refine ⟨⟨hpost.1, hpost.2.1⟩, ?_, ?_⟩
  · exact applyOrderOps_sum now ops _ (by rw [hpost.1, hpost.2.1]; omega)
  · intro hb hq
    exact applyOrderOps_nonneg now ops _ (by rw [hpost.1, hpost.2.1]; omega)
      (by rw [hpost.2.1, hpost.2.2]; exact hq) hb

/-- C2 counterexample: the code does not guard over-fills — adding a fill of
2 to a one-lot order drives `remaining_quantity` to `-1`, violating the
claimed `remaining_quantity ≥ 0` (the sum invariant still holds). -/
theorem add_fill_overfill_negative :
    ((unitQuantityOrder.add_fill 2 5 0).remaining_quantity = -1 ∧
      (unitQuantityOrder.add_fill 2 5 0).remaining_quantity < 0) ∧
    (unitQuantityOrder.add_fill 2 5 0).filled_quantity +
        (unitQuantityOrder.add_fill 2 5 0).remaining_quantity =
      (unitQuantityOrder.add_fill 2 5 0).quantity := by
  refine ⟨⟨by decide, by decide⟩, by decide⟩

/-- Witness for the amended C2 at a concrete partial-then-full fill. -/
theorem processed_order_quantity_invariant_witness :
    sampleProcessedOrder.filled_quantity = 0 ∧
    boundedFills 0 (ProcessedOrder.postInit sampleProcessedOrder)
      [OrderOp.fill 4 5, OrderOp.fill 6 5] = true ∧
    (((ProcessedOrder.postInit sampleProcessedOrder).filled_quantity = 0 ∧
      (ProcessedOrder.postInit sampleProcessedOrder).remaining_quantity =
        (ProcessedOrder.postInit sampleProcessedOrder).quantity) ∧
    ((applyOrderOps 0 (ProcessedOrder.postInit sampleProcessedOrder)
          [OrderOp.fill 4 5, OrderOp.fill 6 5]).filled_quantity +
        (applyOrderOps 0 (ProcessedOrder.postInit sampleProcessedOrder)
          [OrderOp.fill 4 5, OrderOp.fill 6 5]).remaining_quantity =
      (applyOrderOps 0 (ProcessedOrder.postInit sampleProcessedOrder)
          [OrderOp.fill 4 5, OrderOp.fill 6 5]).quantity) ∧
    (boundedFills 0 (ProcessedOrder.postInit sampleProcessedOrder)
        [OrderOp.fill 4 5, OrderOp.fill 6 5] = true →
      0 ≤ sampleProcessedOrder.quantity →
      0 ≤ (applyOrderOps 0 (ProcessedOrder.postInit sampleProcessedOrder)
          [OrderOp.fill 4 5, OrderOp.fill 6 5]).remaining_quantity)) :=
  ⟨by decide, by decide,
    processed_order_quantity_invariant sampleProcessedOrder 0
      [OrderOp.fill 4 5, OrderOp.fill 6 5] (by decide)⟩

end FillInvariant

section SecurityId

/-- C6 (amended): `generate_security_id` is a pure function of
`(expiry_date, option_type, strike_price)` alone — the instrument's
`symbol` field is not consulted, the prefix being the literal `SPXW` — and
for instruments whose symbol is `SPXW` it agrees with the spec's canonical
encoding `{symbol}_{YY}{MM}{DD}_{C|P}_{strike*1000, zero-padded to 8
digits}`. -/
theorem generate_security_id_pure (i j : SPXWInstrument)
    (h1 : i.expiry_date = j.expiry_date) (h2 : i.option_type = j.option_type)
    (h3 : i.strike_price = j.strike_price) :
    i.generate_security_id = j.generate_security_id ∧
    (i.symbol = "SPXW".data → i.generate_security_id = specSecurityId i) := by
  constructor
  · rw [SPXWInstrument.generate_security_id, SPXWInstrument.generate_security_id, h1, h2, h3]
  · intro hs
    rw [SPXWInstrument.generate_security_id, specSecurityId, hs]
    simp only [List.append_assoc]
    rfl

/-- C6 counterexample: an instrument whose `symbol` is `ABC` still gets a
`SPXW_`-prefixed identifier, so `security_id` does not equal the claimed
`{symbol}_...` encoding for every instrument. -/
theorem generate_security_id_ignores_symbol :
    SPXWInstrument.generate_security_id
        { symbol := "ABC".data, underlying_symbol := "SPX".data, strike_price := 4150,
          expiry_date := ⟨2026, 12, 18⟩, option_type := "CALL".data } =
      "SPXW_261218_C_04150000".data ∧
    SPXWInstrument.generate_security_id
        { symbol := "ABC".data, underlying_symbol := "SPX".data, strike_price := 4150,
          expiry_date := ⟨2026, 12, 18⟩, option_type := "CALL".data } ≠
      specSecurityId
        { symbol := "ABC".data, underlying_symbol := "SPX".data, strike_price := 4150,
          expiry_date := ⟨2026, 12, 18⟩, option_type := "CALL".data } := by
  have hmul : ((4150 : ℚ) * 1000) = 4150000 := by norm_num
  have hgen : SPXWInstrument.generate_security_id
      { symbol := "ABC".data, underlying_symbol := "SPX".data, strike_price := 4150,
        expiry_date := ⟨2026, 12, 18⟩, option_type := "CALL".data } =
      "SPXW_".data ++ strftimeYYMMDD ⟨2026, 12, 18⟩ ++ "_".data ++ "C".data ++ "_".data
        ++ pyFormat08d (pyIntOfRat ((4150 : ℚ) * 1000)) := rfl
  have hspec : specSecurityId
      { symbol := "ABC".data, underlying_symbol := "SPX".data, strike_price := 4150,
        expiry_date := ⟨2026, 12, 18⟩, option_type := "CALL".data } =
      "ABC".data ++ "_".data ++ strftimeYYMMDD ⟨2026, 12, 18⟩ ++ "_".data ++ "C".data
        ++ "_".data ++ pyFormat08d (pyIntOfRat ((4150 : ℚ) * 1000)) := rfl
  rw [hgen, hspec, hmul]
  refine ⟨by decide, by decide⟩

/-- Witness for the amended C6 at a factory-built SPXW call. -/
theorem generate_security_id_pure_witness :
    (SPXWInstrumentFactory.create_option 4150 ⟨2026, 12, 18⟩ "CALL".data).expiry_date =
        (SPXWInstrumentFactory.create_option 4150 ⟨2026, 12, 18⟩ "CALL".data).expiry_date ∧
    ((SPXWInstrumentFactory.create_option 4150 ⟨2026, 12, 18⟩ "CALL".data).generate_security_id =
        (SPXWInstrumentFactory.create_option 4150 ⟨2026, 12, 18⟩ "CALL".data).generate_security_id ∧
      ((SPXWInstrumentFactory.create_option 4150 ⟨2026, 12, 18⟩ "CALL".data).symbol =
          "SPXW".data →
        (SPXWInstrumentFactory.create_option 4150 ⟨2026, 12, 18⟩ "CALL".data).generate_security_id =
          specSecurityId (SPXWInstrumentFactory.create_option 4150 ⟨2026, 12, 18⟩ "CALL".data))) :=
  ⟨rfl, generate_security_id_pure _ _ rfl rfl rfl⟩

end SecurityId

section RateLimit

/-- C7: the rate check rejects with a rate `RiskError` exactly when the
number of recorded orders with timestamp within the last second is at
least `max_orders_per_second`; and, through the full `check_order`
pipeline with `max_orders_per_second = 3`, of four orders submitted
within 500 ms the first three are accepted and the fourth is rejected
with the rate error. -/
theorem rate_limit_exact_and_burst :
    (∀ (limits : RiskLimits) (now : Int) (st : RiskState),
      (∃ m, RiskProcessor._check_order_rate limits now st = .error (.riskManagement m)) ↔
        limits.max_orders_per_second ≤
          (st.order_history.filter (fun r => r.timestamp > now - oneSecondMicros)).length) ∧
    (∃ s1 s2 s3, burstSubmit 0 freshRiskState = .ok s1 ∧ burstSubmit 100000 s1 = .ok s2 ∧
      burstSubmit 200000 s2 = .ok s3 ∧
      burstSubmit 300000 s3 = .error (.riskManagement "Order rate limit exceeded".data)) := by
  constructor
  · intro limits now st
    rw [RiskProcessor._check_order_rate]
    by_cases h : limits.max_orders_per_second ≤
        (st.order_history.filter (fun r => r.timestamp > now - oneSecondMicros)).length
    · simp [h]
    · simp [h]
  · exact ⟨_, _, _, rfl, rfl, rfl, rfl⟩

end RateLimit

section AccountDefault

/-- C8 (code bug): the pipeline fills the internal `account` with the
configured `default_currency` when the request leaves it unset
(order_processor.py:180, `order_request.account or
self.config.trading.default_currency`), instead of leaving it unset as
the spec requires. -/
theorem account_defaults_to_currency :
    requestWithoutAccount.account = none ∧
    ({} : AppConfig).trading.default_currency = "USD".data ∧
    resultAccount
      (OrderProcessor.process_order {} ⟨2026, 10, 12⟩ ⟨⟨2026, 10, 12⟩, 0⟩ 0
        freshRiskState requestWithoutAccount) = some "USD".data := by
  refine ⟨rfl, rfl, by decide⟩

end AccountDefault

section GatewaySend

/-- C9 (code bug): `send_order` inserts the order into `pending_orders`
before sending; when the send then fails (here: no active session), the
error is re-raised as `OrderProcessingError`, but the entry is NOT removed
— the failed send leaves the order in the outstanding-orders map,
contradicting the claim that a failed send leaves no entry. -/
theorem send_order_failure_keeps_pending :
    ∃ g', FixGatewayService.send_order
        { connected := true, session_id := none, pending_orders := [] } false
        sampleProcessedOrder =
      .error (.orderProcessing "Failed to send order: No active FIX session".data, g') ∧
      pyGet? g'.pending_orders "T1".data = some sampleProcessedOrder :=
  ⟨_, rfl, rfl⟩

end GatewaySend

section Pipeline

theorem baseProcessedOrder_fields (cfg : AppConfig) (o : OrderRequest) (side : OrderSide)
    (ot : OrderType) (tif : TimeInForce) :
    (OrderProcessor.baseProcessedOrder cfg o side ot tif).client_order_id =
      pyOrStr o.client_order_id o.order_id ∧
    (OrderProcessor.baseProcessedOrder cfg o side ot tif).remaining_quantity =
      (OrderProcessor.baseProcessedOrder cfg o side ot tif).quantity := by
  refine ⟨rfl, ?_⟩
  show o.quantity - 0 = o.quantity
  omega

theorem applyInstrumentFields_fields (cfg : AppConfig) (base : ProcessedOrder)
    (inst : Option SPXWInstrument) (p0 : ProcessedOrder)
    (h : OrderProcessor.applyInstrumentFields cfg base inst = .ok p0) :
    p0.client_order_id = base.client_order_id ∧
    p0.remaining_quantity = base.remaining_quantity ∧ p0.quantity = base.quantity := by
  cases inst with
  | none =>
    simp only [OrderProcessor.applyInstrumentFields] at h
    injection h with h
    subst h
    exact ⟨rfl, rfl, rfl⟩
  | some i =>
    simp only [OrderProcessor.applyInstrumentFields] at h
    cases hot : pyOptionType? i.option_type with
    | none => rw [hot] at h; exact Except.noConfusion h
    | some iot =>
      rw [hot] at h
      injection h with h
      subst h
      exact ⟨rfl, rfl, rfl⟩

theorem applyOptionalFields_fields (o : OrderRequest) (p0 : ProcessedOrder) :
    (OrderProcessor.applyOptionalFields o p0).client_order_id = p0.client_order_id ∧
    (OrderProcessor.applyOptionalFields o p0).remaining_quantity = p0.remaining_quantity ∧
    (OrderProcessor.applyOptionalFields o p0).quantity = p0.quantity := by
  unfold OrderProcessor.applyOptionalFields
  dsimp only
  repeat' split
  all_goals exact ⟨rfl, rfl, rfl⟩

theorem enrich_order_fields (p : ProcessedOrder) :
    (OrderProcessor._enrich_order p).client_order_id = p.client_order_id ∧
    (OrderProcessor._enrich_order p).remaining_quantity = p.remaining_quantity ∧
    (OrderProcessor._enrich_order p).quantity = p.quantity := by
  unfold OrderProcessor._enrich_order
  dsimp only
  repeat' split
  all_goals exact ⟨rfl, rfl, rfl⟩

theorem create_processed_order_fields (cfg : AppConfig) (o : OrderRequest)
    (inst : Option SPXWInstrument) (po : ProcessedOrder)
    (h : OrderProcessor._create_processed_order cfg o inst = .ok po) :
    po.client_order_id = pyOrStr o.client_order_id o.order_id ∧
    po.remaining_quantity = po.quantity := by
  unfold OrderProcessor._create_processed_order at h
  cases hs : pyOrderSide? (pyUpper o.side) with
  | none => rw [hs] at h; exact Except.noConfusion h
  | some side =>
    rw [hs] at h
    cases hot : pyOrderType? (pyUpper o.order_type) with
    | none => rw [hot] at h; exact Except.noConfusion h
    | some ot =>
      rw [hot] at h
      cases htif : pyTimeInForce? (pyUpper o.time_in_force) with
      | none => rw [htif] at h; exact Except.noConfusion h
      | some tif =>
        rw [htif] at h
        dsimp only at h
        cases hai : OrderProcessor.applyInstrumentFields cfg
            (OrderProcessor.baseProcessedOrder cfg o side ot tif) inst with
        | error e => rw [hai] at h; exact Except.noConfusion h
        | ok p0 =>
          rw [hai] at h
          injection h with h
          subst h
          obtain ⟨hb1, hb2⟩ := baseProcessedOrder_fields cfg o side ot tif
          obtain ⟨hi1, hi2, hi3⟩ := applyInstrumentFields_fields cfg _ inst p0 hai
          obtain ⟨ho1, ho2, ho3⟩ := applyOptionalFields_fields o p0
          constructor
          · rw [ho1, hi1, hb1]
          · rw [ho2, ho3, hi2, hi3, hb2]

/-- C1: for every order request accepted by the validation stage, the
pipeline either returns a `ProcessedOrder` whose `client_order_id` is the
request's `client_order_id` when truthy and otherwise its `order_id`
(Python `client_order_id or order_id`), and whose `remaining_quantity`
equals its `quantity` — or it fails with one of the typed failures
(`ValidationError`, `InstrumentError`, `RiskError`, `ProcessingError`);
being a function into `Except`, it never does both.  (The catch-all in
`process_order` in fact re-raises everything as `OrderProcessingError`.) -/
theorem process_order_result (cfg : AppConfig) (today : PyDate) (nowDT : PyDateTime)
    (now : Int) (st : RiskState) (req : OrderRequest)
    (hvalid : OrderProcessor._validate_order today nowDT req = .ok ()) :
    (∃ p st', OrderProcessor.process_order cfg today nowDT now st req = .ok (p, st') ∧
        p.client_order_id = pyOrStr req.client_order_id req.order_id ∧
        p.remaining_quantity = p.quantity) ∨
    (∃ e, OrderProcessor.process_order cfg today nowDT now st req = .error e ∧
        isTypedFailure e = true) := by
  cases hres : OrderProcessor._resolve_instrument today req with
  | error e =>
    right
    have hinner : OrderProcessor.processOrderInner cfg today nowDT now st req = .error e := by
      unfold OrderProcessor.processOrderInner
      rw [hvalid, hres]
    refine ⟨.orderProcessing ("Order processing failed: ".data ++ errMsg e), ?_, rfl⟩
    unfold OrderProcessor.process_order
    rw [hinner]
  | ok inst =>
    cases hc : OrderProcessor._create_processed_order cfg req inst with
    | error e =>
      right
      have hinner : OrderProcessor.processOrderInner cfg today nowDT now st req = .error e := by
        unfold OrderProcessor.processOrderInner
        rw [hvalid, hres]
        dsimp only
        rw [hc]
      refine ⟨.orderProcessing ("Order processing failed: ".data ++ errMsg e), ?_, rfl⟩
      unfold OrderProcessor.process_order
      rw [hinner]
    | ok po =>
      cases hk : RiskProcessor.check_order cfg.trading.risk_limits today now st po with
      | error e =>
        right
        have hinner : OrderProcessor.processOrderInner cfg today nowDT now st req = .error e := by
          unfold OrderProcessor.processOrderInner
          rw [hvalid, hres]
          dsimp only
          rw [hc]
          dsimp only
          rw [hk]
        refine ⟨.orderProcessing ("Order processing failed: ".data ++ errMsg e), ?_, rfl⟩
        unfold OrderProcessor.process_order
        rw [hinner]
      | ok st' =>
        left
        have hinner : OrderProcessor.processOrderInner cfg today nowDT now st req =
            .ok (OrderProcessor._enrich_order po, st') := by
          unfold OrderProcessor.processOrderInner
          rw [hvalid, hres]
          dsimp only
          rw [hc]
          dsimp only
          rw [hk]
        obtain ⟨h1, h2⟩ := create_processed_order_fields cfg req inst po hc
        obtain ⟨he1, he2, he3⟩ := enrich_order_fields po
        refine ⟨OrderProcessor._enrich_order po, st', ?_, ?_, ?_⟩
        · unfold OrderProcessor.process_order
          rw [hinner]
        · rw [he1, h1]
        · rw [he2, he3, h2]

/-- Witness for C1 at a concrete valid LIMIT request. -/
theorem process_order_result_witness :
    OrderProcessor._validate_order ⟨2026, 10, 12⟩ ⟨⟨2026, 10, 12⟩, 0⟩
      requestWithoutAccount = .ok () ∧
    ((∃ p st', OrderProcessor.process_order {} ⟨2026, 10, 12⟩ ⟨⟨2026, 10, 12⟩, 0⟩ 0
          freshRiskState requestWithoutAccount = .ok (p, st') ∧
        p.client_order_id = pyOrStr requestWithoutAccount.client_order_id
          requestWithoutAccount.order_id ∧
        p.remaining_quantity = p.quantity) ∨
      (∃ e, OrderProcessor.process_order {} ⟨2026, 10, 12⟩ ⟨⟨2026, 10, 12⟩, 0⟩ 0
          freshRiskState requestWithoutAccount = .error e ∧
        isTypedFailure e = true)) :=
  ⟨rfl,
    process_order_result {} ⟨2026, 10, 12⟩ ⟨⟨2026, 10, 12⟩, 0⟩ 0 freshRiskState
      requestWithoutAccount rfl⟩

end Pipeline

section ExecReport

theorem parseExecReportInner_fails (fields : List (Int × Str)) :
    ∃ e, FixMessageProcessor.parseExecReportInner fields = .error e := by
  unfold FixMessageProcessor.parseExecReportInner
  cases h1 : intFieldD fields 38 with
  | error e => exact ⟨e, rfl⟩
  | ok a1 =>
    cases h2 : intFieldD fields 14 with
    | error e => exact ⟨e, rfl⟩
    | ok a2 =>
      cases h3 : intFieldD fields 151 with
      | error e => exact ⟨e, rfl⟩
      | ok a3 =>
        cases h4 : optIntField fields 32 with
        | error e => exact ⟨e, rfl⟩
        | ok a4 =>
          cases h5 : optDecField fields 6 with
          | error e => exact ⟨e, rfl⟩
          | ok a5 =>
            cases h6 : optDecField fields 31 with
            | error e => exact ⟨e, rfl⟩
            | ok a6 =>
              refine ⟨.pyValueError
                "__init__() got an unexpected keyword argument orig_client_order_id".data, ?_⟩
              rw [show dataclassCallAccepted executionReportFieldNames
                  parseExecutionReportCallKwargs = false from by decide]
              rfl

/-- C10: `parse_execution_report` raises `MessageParsingError` on every
input field dictionary and never returns an `ExecutionReport`: the
dataclass construction it attempts passes the keyword arguments
`orig_client_order_id` and `account`, which the `ExecutionReport`
dataclass does not declare, so the construction raises `TypeError`
whenever it is reached, and every earlier failure is caught and re-raised
as `MessageParsingError` as well. -/
theorem parse_execution_report_always_fails (fields : List (Int × Str)) :
    ∃ m, FixMessageProcessor.parse_execution_report fields = .error (.messageParsing m) := by
  obtain ⟨e, he⟩ := parseExecReportInner_fails fields
  refine ⟨"Failed to parse execution report: ".data ++ errMsg e, ?_⟩
  unfold FixMessageProcessor.parse_execution_report
  rw [he]

end ExecReport
